import Mathlib

set_option linter.unusedVariables false

/-!
Verification of the auxiliary response-model value types of `kiro.rs`
(`src/kiro/model/common/types.rs`): eight plain data structures with
builder-style constructors and serde-derived JSON (de)serialization.

The wire format is modelled by an inductive `Json` mirroring
`serde_json::Value`; finite `f64` payloads are carried exactly as rationals
(serde_json emits the shortest decimal form of a finite double, which parses
back to the same double), while the non-finite doubles NaN and the two
infinities are modelled by dedicated constructors, since serde_json
serializes them as `null`.

Each Rust struct becomes a Lean structure with the same fields; its derived
`Deserialize` implementation is embedded as a fold over the entries of a JSON
object (`runFields`), with one accumulator slot per field, duplicate-field
detection, unknown keys ignored, required fields checked at the end, and
`Option` fields defaulting to absent — exactly the behaviour of the serde
derive with `rename_all = "camelCase"` and
`skip_serializing_if = "Option::is_none"` as written in the source.
-/

namespace Kiro

/-- A 64-bit IEEE double as it matters to this data model: a finite value
(carried exactly; serde_json round-trips finite doubles through their
shortest decimal form) or one of the three non-finite values, which
serde_json serializes as `null`. -/
inductive F64 where
  | finite (q : Rat)
  | nan
  | inf
  | negInf
deriving DecidableEq, Repr

/-- Whether a double is finite. -/
def F64.isFinite : F64 → Bool
  | .finite _ => true
  | _ => false

/-- The JSON wire format, mirroring `serde_json::Value`.  Numbers that can
appear in a JSON document are finite, hence a rational payload. -/
inductive Json where
  | null
  | bool (b : Bool)
  | num (q : Rat)
  | str (s : String)
  | arr (elems : List Json)
  | obj (kvs : List (String × Json))

/-- The entry list of a JSON object. -/
abbrev Fields := List (String × Json)

/-- Structured deserialization errors, as surfaced by serde: a missing
required field, a duplicated field, a type mismatch (carrying the expected
type), or an unknown enum variant. -/
inductive ParseError where
  | missingField (name : String)
  | duplicateField (name : String)
  | invalidType (expected : String)
  | unknownVariant (token : String)
deriving DecidableEq, Repr

/-- Expect a JSON string. -/
def Json.asString : Json → Except ParseError String
  | .str s => .ok s
  | _ => .error (.invalidType "a string")

/-- Expect a JSON number, read as an `f64` (always finite: JSON has no
NaN or infinity literals). -/
def Json.asF64 : Json → Except ParseError F64
  | .num q => .ok (.finite q)
  | _ => .error (.invalidType "a number")

/-- The signed 32-bit range. -/
def i32range (x : Int) : Prop := -(2 ^ 31) ≤ x ∧ x < 2 ^ 31

instance (x : Int) : Decidable (i32range x) := by
  unfold i32range; infer_instance

/-- Expect a JSON number holding an `i32`: an integral value in signed
32-bit range. -/
def Json.asI32 : Json → Except ParseError Int
  | .num q =>
    if q.den = 1 ∧ i32range q.num then .ok q.num else .error (.invalidType "i32")
  | _ => .error (.invalidType "i32")

/-- How serde reads an `Option` field that is present in the input:
`null` becomes absent, anything else is parsed by the inner deserializer. -/
def Json.asOpt (p : Json → Except ParseError α) : Json → Except ParseError (Option α)
  | .null => .ok none
  | j => (p j).map some

/-- The serialization of an optional field: omitted entirely when absent
(`skip_serializing_if = "Option::is_none"`). -/
def optField (key : String) : Option Json → Fields
  | none => []
  | some j => [(key, j)]

/-- The field loop of a serde-derived `Deserialize` impl: process the
entries of the object in order, threading the per-field accumulator state,
stopping at the first error. -/
def runFields (step : σ → String → Json → Except ParseError σ) :
    Fields → σ → Except ParseError σ
  | [], st => .ok st
  | (k, j) :: rest, st =>
    match step st k j with
    | .error e => .error e
    | .ok st' => runFields step rest st'

/-- Top-level keys of a JSON value (empty for non-objects). -/
def Json.topKeys : Json → List String
  | .obj kvs => kvs.map Prod.fst
  | _ => []

/-- One slot of accumulator state per field: `none` while the field has not
been seen yet. -/
abbrev Slot (α : Type) := Option α

/-- Read one field slot, with serde duplicate detection. -/
def readSlot (name : String) (slot : Slot α) (parse : Except ParseError α)
    (store : α → σ) : Except ParseError σ :=
  match slot with
  | some _ => .error (.duplicateField name)
  | none =>
    match parse with
    | .error e => .error e
    | .ok v => .ok (store v)

end Kiro

namespace Kiro

/-- `ContentSpan`: a half-open position range inside a response text.
Fields are Rust `i32`; modelled as `Int`, with `i32range` expressing
membership in the machine type. -/
structure ContentSpan where
  start : Int
  «end» : Int
deriving DecidableEq, Repr

/-- `ContentSpan::new` — stores both fields, no validation. -/
def ContentSpan.new (start «end» : Int) : ContentSpan :=
  { start := start, «end» := «end» }

/-- Two's-complement wrap-around into the signed 32-bit range, the
release-mode semantics of unguarded `i32` arithmetic. -/
def wrap32 (x : Int) : Int := (x + 2 ^ 31) % 2 ^ 32 - 2 ^ 31

/-- `ContentSpan::len` — `self.end - self.start`, plain unguarded `i32`
subtraction. -/
def ContentSpan.len (s : ContentSpan) : Int := wrap32 (s.«end» - s.start)

/-- `ContentSpan::is_empty` — `self.start >= self.end`. -/
def ContentSpan.is_empty (s : ContentSpan) : Bool := s.start ≥ s.«end»

/-- The derived `PartialEq` of `ContentSpan` (the only struct in the file
that derives it): field-for-field comparison. -/
def ContentSpan.rustEq (a b : ContentSpan) : Bool :=
  a.start == b.start && a.«end» == b.«end»

/-- Serde serialization of `ContentSpan` (no `rename_all`; both field
names are single words). -/
def ContentSpan.toJson (s : ContentSpan) : Json :=
  .obj [("start", .num s.start), ("end", .num s.«end»)]

/-- Accumulator for the `ContentSpan` field loop. -/
structure ContentSpanSt where
  start : Slot Int
  «end» : Slot Int
deriving Repr

def ContentSpan.stInit : ContentSpanSt := ⟨none, none⟩

def ContentSpan.step (st : ContentSpanSt) (k : String) (j : Json) :
    Except ParseError ContentSpanSt :=
  if k = "start" then
    readSlot "start" st.start j.asI32 (fun v => { st with start := some v })
  else if k = "end" then
    readSlot "end" st.«end» j.asI32 (fun v => { st with «end» := some v })
  else .ok st

def ContentSpan.finalize (st : ContentSpanSt) : Except ParseError ContentSpan :=
  match st.start with
  | none => .error (.missingField "start")
  | some s =>
    match st.«end» with
    | none => .error (.missingField "end")
    | some e => .ok ⟨s, e⟩

/-- Serde deserialization of `ContentSpan`. -/
def ContentSpan.fromJson : Json → Except ParseError ContentSpan
  | .obj kvs =>
    match runFields ContentSpan.step kvs ContentSpan.stInit with
    | .error e => .error e
    | .ok st => ContentSpan.finalize st
  | _ => .error (.invalidType "struct ContentSpan")

/-- `SupplementaryWebLink`: a cited web resource.  `url` is required;
`title`, `snippet` and `score` are optional, the score being an `f64`. -/
structure SupplementaryWebLink where
  url : String
  title : Option String
  snippet : Option String
  score : Option F64
deriving DecidableEq, Repr

/-- `SupplementaryWebLink::new` — required `url` only, optional fields
absent. -/
def SupplementaryWebLink.new (url : String) : SupplementaryWebLink :=
  { url := url, title := none, snippet := none, score := none }

/-- `SupplementaryWebLink::with_title`. -/
def SupplementaryWebLink.with_title (s : SupplementaryWebLink) (title : String) :
    SupplementaryWebLink :=
  { s with title := some title }

/-- `SupplementaryWebLink::with_snippet`. -/
def SupplementaryWebLink.with_snippet (s : SupplementaryWebLink) (snippet : String) :
    SupplementaryWebLink :=
  { s with snippet := some snippet }

/-- `SupplementaryWebLink::with_score`. -/
def SupplementaryWebLink.with_score (s : SupplementaryWebLink) (score : F64) :
    SupplementaryWebLink :=
  { s with score := some score }

/-- Serialization of a (possibly non-finite) double by serde_json:
NaN and the infinities become `null`. -/
def F64.toJson : F64 → Json
  | .finite q => .num q
  | _ => .null

/-- Serde serialization of `SupplementaryWebLink` (`rename_all =
"camelCase"`; every field name is a single word, so keys are unchanged;
absent optional fields omitted). -/
def SupplementaryWebLink.toJson (s : SupplementaryWebLink) : Json :=
  .obj ([("url", .str s.url)]
    ++ optField "title" (s.title.map .str)
    ++ optField "snippet" (s.snippet.map .str)
    ++ optField "score" (s.score.map F64.toJson))

/-- Accumulator for the `SupplementaryWebLink` field loop. -/
structure SupplementaryWebLinkSt where
  url : Slot String
  title : Slot (Option String)
  snippet : Slot (Option String)
  score : Slot (Option F64)
deriving Repr

def SupplementaryWebLink.stInit : SupplementaryWebLinkSt := ⟨none, none, none, none⟩

def SupplementaryWebLink.step (st : SupplementaryWebLinkSt) (k : String) (j : Json) :
    Except ParseError SupplementaryWebLinkSt :=
  if k = "url" then
    readSlot "url" st.url j.asString (fun v => { st with url := some v })
  else if k = "title" then
    readSlot "title" st.title (j.asOpt Json.asString) (fun v => { st with title := some v })
  else if k = "snippet" then
    readSlot "snippet" st.snippet (j.asOpt Json.asString) (fun v => { st with snippet := some v })
  else if k = "score" then
    readSlot "score" st.score (j.asOpt Json.asF64) (fun v => { st with score := some v })
  else .ok st

def SupplementaryWebLink.finalize (st : SupplementaryWebLinkSt) :
    Except ParseError SupplementaryWebLink :=
  match st.url with
  | none => .error (.missingField "url")
  | some u =>
    .ok { url := u, title := st.title.getD none, snippet := st.snippet.getD none,
          score := st.score.getD none }

/-- Serde deserialization of `SupplementaryWebLink`. -/
def SupplementaryWebLink.fromJson : Json → Except ParseError SupplementaryWebLink
  | .obj kvs =>
    match runFields SupplementaryWebLink.step kvs SupplementaryWebLink.stInit with
    | .error e => .error e
    | .ok st => SupplementaryWebLink.finalize st
  | _ => .error (.invalidType "struct SupplementaryWebLink")

/-- `MostRelevantMissedAlternative`: a suggested alternative resource.
`url` required; `license_name` and `repository` optional. -/
structure MostRelevantMissedAlternative where
  url : String
  license_name : Option String
  repository : Option String
deriving DecidableEq, Repr

/-- `MostRelevantMissedAlternative::new`. -/
def MostRelevantMissedAlternative.new (url : String) : MostRelevantMissedAlternative :=
  { url := url, license_name := none, repository := none }

/-- Serde serialization of `MostRelevantMissedAlternative`
(`rename_all = "camelCase"`: `license_name` → `licenseName`). -/
def MostRelevantMissedAlternative.toJson (m : MostRelevantMissedAlternative) : Json :=
  .obj ([("url", .str m.url)]
    ++ optField "licenseName" (m.license_name.map .str)
    ++ optField "repository" (m.repository.map .str))

/-- Accumulator for the `MostRelevantMissedAlternative` field loop. -/
structure MostRelevantMissedAlternativeSt where
  url : Slot String
  license_name : Slot (Option String)
  repository : Slot (Option String)
deriving Repr

def MostRelevantMissedAlternative.stInit : MostRelevantMissedAlternativeSt :=
  ⟨none, none, none⟩

def MostRelevantMissedAlternative.step (st : MostRelevantMissedAlternativeSt)
    (k : String) (j : Json) : Except ParseError MostRelevantMissedAlternativeSt :=
  if k = "url" then
    readSlot "url" st.url j.asString (fun v => { st with url := some v })
  else if k = "licenseName" then
    readSlot "licenseName" st.license_name (j.asOpt Json.asString)
      (fun v => { st with license_name := some v })
  else if k = "repository" then
    readSlot "repository" st.repository (j.asOpt Json.asString)
      (fun v => { st with repository := some v })
  else .ok st

def MostRelevantMissedAlternative.finalize (st : MostRelevantMissedAlternativeSt) :
    Except ParseError MostRelevantMissedAlternative :=
  match st.url with
  | none => .error (.missingField "url")
  | some u =>
    .ok { url := u, license_name := st.license_name.getD none,
          repository := st.repository.getD none }

/-- Serde deserialization of `MostRelevantMissedAlternative`. -/
def MostRelevantMissedAlternative.fromJson :
    Json → Except ParseError MostRelevantMissedAlternative
  | .obj kvs =>
    match runFields MostRelevantMissedAlternative.step kvs
        MostRelevantMissedAlternative.stInit with
    | .error e => .error e
    | .ok st => MostRelevantMissedAlternative.finalize st
  | _ => .error (.invalidType "struct MostRelevantMissedAlternative")

/-- `Reference`: a code-provenance citation.  All six fields are optional. -/
structure Reference where
  license_name : Option String
  repository : Option String
  url : Option String
  information : Option String
  recommendation_content_span : Option ContentSpan
  most_relevant_missed_alternative : Option MostRelevantMissedAlternative
deriving DecidableEq, Repr

/-- `Reference::new` — the all-absent reference. -/
def Reference.new : Reference :=
  { license_name := none, repository := none, url := none, information := none,
    recommendation_content_span := none, most_relevant_missed_alternative := none }

/-- `Reference::with_license_name`. -/
def Reference.with_license_name (r : Reference) (name : String) : Reference :=
  { r with license_name := some name }

/-- `Reference::with_repository`. -/
def Reference.with_repository (r : Reference) (repo : String) : Reference :=
  { r with repository := some repo }

/-- `Reference::with_url`. -/
def Reference.with_url (r : Reference) (url : String) : Reference :=
  { r with url := some url }

/-- Serde serialization of `Reference` (`rename_all = "camelCase"`). -/
def Reference.toJson (r : Reference) : Json :=
  .obj (optField "licenseName" (r.license_name.map .str)
    ++ optField "repository" (r.repository.map .str)
    ++ optField "url" (r.url.map .str)
    ++ optField "information" (r.information.map .str)
    ++ optField "recommendationContentSpan" (r.recommendation_content_span.map ContentSpan.toJson)
    ++ optField "mostRelevantMissedAlternative"
        (r.most_relevant_missed_alternative.map MostRelevantMissedAlternative.toJson))

/-- Accumulator for the `Reference` field loop. -/
structure ReferenceSt where
  license_name : Slot (Option String)
  repository : Slot (Option String)
  url : Slot (Option String)
  information : Slot (Option String)
  recommendation_content_span : Slot (Option ContentSpan)
  most_relevant_missed_alternative : Slot (Option MostRelevantMissedAlternative)
deriving Repr

def Reference.stInit : ReferenceSt := ⟨none, none, none, none, none, none⟩

def Reference.step (st : ReferenceSt) (k : String) (j : Json) :
    Except ParseError ReferenceSt :=
  if k = "licenseName" then
    readSlot "licenseName" st.license_name (j.asOpt Json.asString)
      (fun v => { st with license_name := some v })
  else if k = "repository" then
    readSlot "repository" st.repository (j.asOpt Json.asString)
      (fun v => { st with repository := some v })
  else if k = "url" then
    readSlot "url" st.url (j.asOpt Json.asString)
      (fun v => { st with url := some v })
  else if k = "information" then
    readSlot "information" st.information (j.asOpt Json.asString)
      (fun v => { st with information := some v })
  else if k = "recommendationContentSpan" then
    readSlot "recommendationContentSpan" st.recommendation_content_span
      (j.asOpt ContentSpan.fromJson)
      (fun v => { st with recommendation_content_span := some v })
  else if k = "mostRelevantMissedAlternative" then
    readSlot "mostRelevantMissedAlternative" st.most_relevant_missed_alternative
      (j.asOpt MostRelevantMissedAlternative.fromJson)
      (fun v => { st with most_relevant_missed_alternative := some v })
  else .ok st

def Reference.finalize (st : ReferenceSt) : Except ParseError Reference :=
  .ok { license_name := st.license_name.getD none,
        repository := st.repository.getD none,
        url := st.url.getD none,
        information := st.information.getD none,
        recommendation_content_span := st.recommendation_content_span.getD none,
        most_relevant_missed_alternative := st.most_relevant_missed_alternative.getD none }

/-- Serde deserialization of `Reference`. -/
def Reference.fromJson : Json → Except ParseError Reference
  | .obj kvs =>
    match runFields Reference.step kvs Reference.stInit with
    | .error e => .error e
    | .ok st => Reference.finalize st
  | _ => .error (.invalidType "struct Reference")

/-- Modelled from the spec: the `UserIntent` enumeration is defined in
`super::enums`, which is not among the provided sources.  The spec treats it
as an externally defined closed set of classified-intent tokens serialized as
fixed uppercase-snake strings, exhibiting the member `ImproveCode` ↔
"IMPROVE_CODE"; we model the enumeration by that exhibited member. -/
inductive UserIntent where
  | improveCode
deriving DecidableEq, Repr

/-- Serialization of a `UserIntent`: its fixed wire token. -/
def UserIntent.toJson : UserIntent → Json
  | .improveCode => .str "IMPROVE_CODE"

/-- Deserialization of a `UserIntent` from its wire token. -/
def UserIntent.fromJson : Json → Except ParseError UserIntent
  | .str "IMPROVE_CODE" => .ok .improveCode
  | .str s => .error (.unknownVariant s)
  | _ => .error (.invalidType "a string")

/-- `FollowupPrompt`: a suggested next user message.  `content` required,
`user_intent` optional. -/
structure FollowupPrompt where
  content : String
  user_intent : Option UserIntent
deriving DecidableEq, Repr

/-- `FollowupPrompt::new`. -/
def FollowupPrompt.new (content : String) : FollowupPrompt :=
  { content := content, user_intent := none }

/-- `FollowupPrompt::with_user_intent`. -/
def FollowupPrompt.with_user_intent (p : FollowupPrompt) (intent : UserIntent) :
    FollowupPrompt :=
  { p with user_intent := some intent }

/-- Serde serialization of `FollowupPrompt` (`user_intent` → `userIntent`). -/
def FollowupPrompt.toJson (p : FollowupPrompt) : Json :=
  .obj ([("content", .str p.content)]
    ++ optField "userIntent" (p.user_intent.map UserIntent.toJson))

/-- Accumulator for the `FollowupPrompt` field loop. -/
structure FollowupPromptSt where
  content : Slot String
  user_intent : Slot (Option UserIntent)
deriving Repr

def FollowupPrompt.stInit : FollowupPromptSt := ⟨none, none⟩

def FollowupPrompt.step (st : FollowupPromptSt) (k : String) (j : Json) :
    Except ParseError FollowupPromptSt :=
  if k = "content" then
    readSlot "content" st.content j.asString (fun v => { st with content := some v })
  else if k = "userIntent" then
    readSlot "userIntent" st.user_intent (j.asOpt UserIntent.fromJson)
      (fun v => { st with user_intent := some v })
  else .ok st

def FollowupPrompt.finalize (st : FollowupPromptSt) : Except ParseError FollowupPrompt :=
  match st.content with
  | none => .error (.missingField "content")
  | some c => .ok { content := c, user_intent := st.user_intent.getD none }

/-- Serde deserialization of `FollowupPrompt`. -/
def FollowupPrompt.fromJson : Json → Except ParseError FollowupPrompt
  | .obj kvs =>
    match runFields FollowupPrompt.step kvs FollowupPrompt.stInit with
    | .error e => .error e
    | .ok st => FollowupPrompt.finalize st
  | _ => .error (.invalidType "struct FollowupPrompt")

/-- `ProgrammingLanguage`: wraps a language name, no validation. -/
structure ProgrammingLanguage where
  language_name : String
deriving DecidableEq, Repr

/-- `ProgrammingLanguage::new`. -/
def ProgrammingLanguage.new (name : String) : ProgrammingLanguage :=
  { language_name := name }

/-- Serde serialization of `ProgrammingLanguage`
(`language_name` → `languageName`). -/
def ProgrammingLanguage.toJson (p : ProgrammingLanguage) : Json :=
  .obj [("languageName", .str p.language_name)]

/-- Accumulator for the `ProgrammingLanguage` field loop. -/
structure ProgrammingLanguageSt where
  language_name : Slot String
deriving Repr

def ProgrammingLanguage.stInit : ProgrammingLanguageSt := ⟨none⟩

def ProgrammingLanguage.step (st : ProgrammingLanguageSt) (k : String) (j : Json) :
    Except ParseError ProgrammingLanguageSt :=
  if k = "languageName" then
    readSlot "languageName" st.language_name j.asString
      (fun v => { st with language_name := some v })
  else .ok st

def ProgrammingLanguage.finalize (st : ProgrammingLanguageSt) :
    Except ParseError ProgrammingLanguage :=
  match st.language_name with
  | none => .error (.missingField "languageName")
  | some n => .ok { language_name := n }

/-- Serde deserialization of `ProgrammingLanguage`. -/
def ProgrammingLanguage.fromJson : Json → Except ParseError ProgrammingLanguage
  | .obj kvs =>
    match runFields ProgrammingLanguage.step kvs ProgrammingLanguage.stInit with
    | .error e => .error e
    | .ok st => ProgrammingLanguage.finalize st
  | _ => .error (.invalidType "struct ProgrammingLanguage")

/-- `Customization`: a named reference to a fine-tuned model resource.
`arn` required, `name` optional.  The source declares no `impl` block for
this struct: it has no constructor and no builder methods. -/
structure Customization where
  arn : String
  name : Option String
deriving DecidableEq, Repr

/-- Serde serialization of `Customization` (no `rename_all` attribute on
this struct; both field names are single words). -/
def Customization.toJson (c : Customization) : Json :=
  .obj ([("arn", .str c.arn)] ++ optField "name" (c.name.map .str))

/-- Accumulator for the `Customization` field loop. -/
structure CustomizationSt where
  arn : Slot String
  name : Slot (Option String)
deriving Repr

def Customization.stInit : CustomizationSt := ⟨none, none⟩

def Customization.step (st : CustomizationSt) (k : String) (j : Json) :
    Except ParseError CustomizationSt :=
  if k = "arn" then
    readSlot "arn" st.arn j.asString (fun v => { st with arn := some v })
  else if k = "name" then
    readSlot "name" st.name (j.asOpt Json.asString) (fun v => { st with name := some v })
  else .ok st

def Customization.finalize (st : CustomizationSt) : Except ParseError Customization :=
  match st.arn with
  | none => .error (.missingField "arn")
  | some a => .ok { arn := a, name := st.name.getD none }

/-- Serde deserialization of `Customization`. -/
def Customization.fromJson : Json → Except ParseError Customization
  | .obj kvs =>
    match runFields Customization.step kvs Customization.stInit with
    | .error e => .error e
    | .ok st => Customization.finalize st
  | _ => .error (.invalidType "struct Customization")

/-- `CodeQuery`: identifies a code query.  `code_query_id` required;
`programming_language` and `user_input_message_id` optional. -/
structure CodeQuery where
  code_query_id : String
  programming_language : Option ProgrammingLanguage
  user_input_message_id : Option String
deriving DecidableEq, Repr

/-- `CodeQuery::new`. -/
def CodeQuery.new (code_query_id : String) : CodeQuery :=
  { code_query_id := code_query_id, programming_language := none,
    user_input_message_id := none }

/-- `CodeQuery::with_programming_language`. -/
def CodeQuery.with_programming_language (q : CodeQuery) (lang : ProgrammingLanguage) :
    CodeQuery :=
  { q with programming_language := some lang }

/-- `CodeQuery::with_user_input_message_id`. -/
def CodeQuery.with_user_input_message_id (q : CodeQuery) (id : String) : CodeQuery :=
  { q with user_input_message_id := some id }

/-- Serde serialization of `CodeQuery` (`rename_all = "camelCase"`). -/
def CodeQuery.toJson (q : CodeQuery) : Json :=
  .obj ([("codeQueryId", .str q.code_query_id)]
    ++ optField "programmingLanguage" (q.programming_language.map ProgrammingLanguage.toJson)
    ++ optField "userInputMessageId" (q.user_input_message_id.map .str))

/-- Accumulator for the `CodeQuery` field loop. -/
structure CodeQuerySt where
  code_query_id : Slot String
  programming_language : Slot (Option ProgrammingLanguage)
  user_input_message_id : Slot (Option String)
deriving Repr

def CodeQuery.stInit : CodeQuerySt := ⟨none, none, none⟩

def CodeQuery.step (st : CodeQuerySt) (k : String) (j : Json) :
    Except ParseError CodeQuerySt :=
  if k = "codeQueryId" then
    readSlot "codeQueryId" st.code_query_id j.asString
      (fun v => { st with code_query_id := some v })
  else if k = "programmingLanguage" then
    readSlot "programmingLanguage" st.programming_language
      (j.asOpt ProgrammingLanguage.fromJson)
      (fun v => { st with programming_language := some v })
  else if k = "userInputMessageId" then
    readSlot "userInputMessageId" st.user_input_message_id (j.asOpt Json.asString)
      (fun v => { st with user_input_message_id := some v })
  else .ok st

def CodeQuery.finalize (st : CodeQuerySt) : Except ParseError CodeQuery :=
  match st.code_query_id with
  | none => .error (.missingField "codeQueryId")
  | some i =>
    .ok { code_query_id := i, programming_language := st.programming_language.getD none,
          user_input_message_id := st.user_input_message_id.getD none }

/-- Serde deserialization of `CodeQuery`. -/
def CodeQuery.fromJson : Json → Except ParseError CodeQuery
  | .obj kvs =>
    match runFields CodeQuery.step kvs CodeQuery.stInit with
    | .error e => .error e
    | .ok st => CodeQuery.finalize st
  | _ => .error (.invalidType "struct CodeQuery")

/-- The eight struct types declared in `types.rs`. -/
inductive RustType where
  | contentSpan
  | supplementaryWebLink
  | mostRelevantMissedAlternative
  | reference
  | followupPrompt
  | programmingLanguage
  | customization
  | codeQuery
deriving DecidableEq, Repr

/-- The traits appearing in the derive attributes of `types.rs`. -/
inductive RustTrait where
  | traitDebug
  | traitClone
  | traitPartialEq
  | traitEq
  | traitSerialize
  | traitDeserialize
deriving DecidableEq, Repr

/-- The derive list of each struct declaration, transcribed from the
source: `ContentSpan` derives `Debug, Clone, PartialEq, Eq, Serialize,
Deserialize`; every other struct derives only `Debug, Clone, Serialize,
Deserialize`. -/
def derivesOf : RustType → List RustTrait
  | .contentSpan =>
    [.traitDebug, .traitClone, .traitPartialEq, .traitEq, .traitSerialize, .traitDeserialize]
  | .supplementaryWebLink => [.traitDebug, .traitClone, .traitSerialize, .traitDeserialize]
  | .mostRelevantMissedAlternative =>
    [.traitDebug, .traitClone, .traitSerialize, .traitDeserialize]
  | .reference => [.traitDebug, .traitClone, .traitSerialize, .traitDeserialize]
  | .followupPrompt => [.traitDebug, .traitClone, .traitSerialize, .traitDeserialize]
  | .programmingLanguage => [.traitDebug, .traitClone, .traitSerialize, .traitDeserialize]
  | .customization => [.traitDebug, .traitClone, .traitSerialize, .traitDeserialize]
  | .codeQuery => [.traitDebug, .traitClone, .traitSerialize, .traitDeserialize]

/-- Which of the eight types declare a `new` constructor taking only the
required field(s), transcribed from the `impl` blocks of the source:
`Customization` has no `impl` block at all, hence no constructor. -/
def hasNewConstructor : RustType → Bool
  | .contentSpan => true
  | .supplementaryWebLink => true
  | .mostRelevantMissedAlternative => true
  | .reference => true
  | .followupPrompt => true
  | .programmingLanguage => true
  | .customization => false
  | .codeQuery => true

end Kiro

namespace Kiro

/-- Keys recognized by the `ContentSpan` deserializer. -/
def ContentSpan.knownKeys : List String := ["start", "end"]

/-- Keys recognized by the `SupplementaryWebLink` deserializer. -/
def SupplementaryWebLink.knownKeys : List String := ["url", "title", "snippet", "score"]

/-- Keys recognized by the `MostRelevantMissedAlternative` deserializer. -/
def MostRelevantMissedAlternative.knownKeys : List String :=
  ["url", "licenseName", "repository"]

/-- Keys recognized by the `Reference` deserializer. -/
def Reference.knownKeys : List String :=
  ["licenseName", "repository", "url", "information", "recommendationContentSpan",
   "mostRelevantMissedAlternative"]

/-- Keys recognized by the `FollowupPrompt` deserializer. -/
def FollowupPrompt.knownKeys : List String := ["content", "userIntent"]

/-- Keys recognized by the `ProgrammingLanguage` deserializer. -/
def ProgrammingLanguage.knownKeys : List String := ["languageName"]

/-- Keys recognized by the `Customization` deserializer. -/
def Customization.knownKeys : List String := ["arn", "name"]

/-- Keys recognized by the `CodeQuery` deserializer. -/
def CodeQuery.knownKeys : List String :=
  ["codeQueryId", "programmingLanguage", "userInputMessageId"]

/-- Splitting the field loop over a concatenation. -/
theorem runFields_append {σ : Type} (step : σ → String → Json → Except ParseError σ)
    (l₁ l₂ : Fields) (st : σ) :
    runFields step (l₁ ++ l₂) st =
      match runFields step l₁ st with
      | .error e => .error e
      | .ok st1 => runFields step l₂ st1 := by
  induction l₁ generalizing st with
  | nil => rfl
  | cons p rest ih =>
    obtain ⟨k, j⟩ := p
    show runFields step ((k, j) :: (rest ++ l₂)) st = _
    simp only [runFields]
    cases step st k j with
    | error e => rfl
    | ok st1 => exact ih st1

/-- A list of entries on which the step function is the identity leaves the
state untouched. -/
theorem runFields_ignored {σ : Type} (step : σ → String → Json → Except ParseError σ)
    (l : Fields) (h : ∀ p ∈ l, ∀ st j, step st p.1 j = .ok st) (st : σ) :
    runFields step l st = .ok st := by
  induction l with
  | nil => rfl
  | cons p rest ih =>
    obtain ⟨k, j⟩ := p
    simp only [runFields, h (k, j) (List.mem_cons_self _ _) st j]
    exact ih (fun q hq st1 j1 => h q (List.mem_cons_of_mem _ hq) st1 j1)

/-- A state projection that no step outside a given key can change is
preserved across the whole loop when that key never occurs. -/
theorem runFields_frame {σ α : Type} (step : σ → String → Json → Except ParseError σ)
    (f : σ → α) (key : String)
    (hstep : ∀ st k j st1, step st k j = .ok st1 → k ≠ key → f st1 = f st) :
    ∀ (l : Fields) (st st1 : σ), runFields step l st = .ok st1 →
      (∀ p ∈ l, p.1 ≠ key) → f st1 = f st := by
  intro l
  induction l with
  | nil =>
    intro st st1 h _
    injection h with h
    rw [h]
  | cons p rest ih =>
    intro st st1 h hk
    obtain ⟨k, j⟩ := p
    simp only [runFields] at h
    cases hs : step st k j with
    | error e => rw [hs] at h; cases h
    | ok st2 =>
      rw [hs] at h
      have h1 : f st2 = f st := hstep st k j st2 hs (hk (k, j) (List.mem_cons_self _ _))
      have h2 : f st1 = f st2 := ih st2 st1 h (fun q hq => hk q (List.mem_cons_of_mem _ hq))
      rw [h2, h1]

/-- Anatomy of a successful slot read: the slot was unseen, the value
parsed, and the state is the stored one. -/
theorem readSlot_ok {α σ : Type} {name : String} {slot : Slot α}
    {parse : Except ParseError α} {store : α → σ} {st1 : σ}
    (h : readSlot name slot parse store = .ok st1) :
    ∃ v, slot = none ∧ parse = .ok v ∧ st1 = store v := by
  unfold readSlot at h
  cases slot with
  | some _ => cases h
  | none =>
    cases parse with
    | error e => cases h
    | ok v =>
      injection h with h
      exact ⟨v, rfl, rfl, h.symm⟩

/-- Reading back an `i32` stored as a JSON number. -/
theorem asI32_intCast (n : Int) (h : i32range n) :
    Json.asI32 (.num (n : Rat)) = .ok n := by
  have hden : ((n : Rat)).den = 1 := Rat.den_intCast n
  have hnum : ((n : Rat)).num = n := Rat.num_intCast n
  simp only [Json.asI32]
  rw [if_pos]
  · rw [hnum]
  · rw [hden, hnum]
    exact ⟨rfl, h⟩

/-- Round-trip for `ContentSpan` (its fields live in `i32`). -/
theorem ContentSpan_roundtrip (v : ContentSpan)
    (h1 : i32range v.start) (h2 : i32range v.«end») :
    ContentSpan.fromJson v.toJson = .ok v := by
  obtain ⟨s, e⟩ := v
  have hs := asI32_intCast s h1
  have he := asI32_intCast e h2
  simp [ContentSpan.fromJson, ContentSpan.toJson, runFields, ContentSpan.step,
    readSlot, hs, he, ContentSpan.stInit, ContentSpan.finalize]

/-- Round-trip for `SupplementaryWebLink`, for instances whose score, when
present, is finite. -/
theorem SupplementaryWebLink_roundtrip (v : SupplementaryWebLink)
    (h : ∀ q, v.score = some q → q.isFinite = true) :
    SupplementaryWebLink.fromJson v.toJson = .ok v := by
  obtain ⟨u, t, sn, sc⟩ := v
  cases t <;> cases sn <;> cases sc <;>
    first
      | rfl
      | (rename_i q
         have hq := h q rfl
         cases q <;> first | rfl | (simp [F64.isFinite] at hq))

/-- Round-trip for `MostRelevantMissedAlternative`. -/
theorem MostRelevantMissedAlternative_roundtrip (v : MostRelevantMissedAlternative) :
    MostRelevantMissedAlternative.fromJson v.toJson = .ok v := by
  obtain ⟨u, ln, rp⟩ := v
  cases ln <;> cases rp <;> rfl

/-- Round-trip for `Reference`, for instances whose embedded span, when
present, has `i32` fields. -/
theorem Reference_roundtrip (v : Reference)
    (h : ∀ sp, v.recommendation_content_span = some sp →
      i32range sp.start ∧ i32range sp.«end») :
    Reference.fromJson v.toJson = .ok v := by
  obtain ⟨ln, rp, u, info, sp, alt⟩ := v
  cases sp with
  | none =>
    cases ln <;> cases rp <;> cases u <;> cases info <;>
      (cases alt with
        | none => rfl
        | some m =>
          obtain ⟨mu, ml, mr⟩ := m
          cases ml <;> cases mr <;> rfl)
  | some s =>
    have hcs : Json.asOpt ContentSpan.fromJson s.toJson = .ok (some s) := by
      have hrt := ContentSpan_roundtrip s (h s rfl).1 (h s rfl).2
      show Except.map some (ContentSpan.fromJson s.toJson) = .ok (some s)
      rw [hrt]
      rfl
    have halt : ∀ m : MostRelevantMissedAlternative,
        Json.asOpt MostRelevantMissedAlternative.fromJson m.toJson = .ok (some m) := by
      intro m
      have hrt := MostRelevantMissedAlternative_roundtrip m
      show Except.map some (MostRelevantMissedAlternative.fromJson m.toJson) = .ok (some m)
      rw [hrt]
      rfl
    have hstr : ∀ v : String, Json.asOpt Json.asString (.str v) = .ok (some v) :=
      fun v => rfl
    cases ln <;> cases rp <;> cases u <;> cases info <;> cases alt <;>
      simp [Reference.fromJson, Reference.toJson, optField, runFields, Reference.step,
        readSlot, hcs, halt, hstr, Reference.stInit, Reference.finalize]

/-- Round-trip for `FollowupPrompt`. -/
theorem FollowupPrompt_roundtrip (v : FollowupPrompt) :
    FollowupPrompt.fromJson v.toJson = .ok v := by
  obtain ⟨c, ui⟩ := v
  cases ui with
  | none => rfl
  | some i =>
    cases i
    rfl

/-- Round-trip for `ProgrammingLanguage`. -/
theorem ProgrammingLanguage_roundtrip (v : ProgrammingLanguage) :
    ProgrammingLanguage.fromJson v.toJson = .ok v := by
  obtain ⟨n⟩ := v
  rfl

/-- Round-trip for `Customization`. -/
theorem Customization_roundtrip (v : Customization) :
    Customization.fromJson v.toJson = .ok v := by
  obtain ⟨a, n⟩ := v
  cases n <;> rfl

/-- Round-trip for `CodeQuery`. -/
theorem CodeQuery_roundtrip (v : CodeQuery) :
    CodeQuery.fromJson v.toJson = .ok v := by
  obtain ⟨i, pl, mid⟩ := v
  cases pl with
  | none => cases mid <;> rfl
  | some l =>
    obtain ⟨n⟩ := l
    cases mid <;> rfl


theorem ContentSpan_step_unknown (st : ContentSpanSt) (k : String) (j : Json)
    (h : k ∉ ContentSpan.knownKeys) : ContentSpan.step st k j = .ok st := by
  simp [ContentSpan.knownKeys] at h
  obtain ⟨h1, h2⟩ := h
  unfold ContentSpan.step
  rw [if_neg h1, if_neg h2]

theorem SupplementaryWebLink_step_unknown (st : SupplementaryWebLinkSt) (k : String)
    (j : Json) (h : k ∉ SupplementaryWebLink.knownKeys) :
    SupplementaryWebLink.step st k j = .ok st := by
  simp [SupplementaryWebLink.knownKeys] at h
  obtain ⟨h1, h2, h3, h4⟩ := h
  unfold SupplementaryWebLink.step
  rw [if_neg h1, if_neg h2, if_neg h3, if_neg h4]

theorem MostRelevantMissedAlternative_step_unknown (st : MostRelevantMissedAlternativeSt)
    (k : String) (j : Json) (h : k ∉ MostRelevantMissedAlternative.knownKeys) :
    MostRelevantMissedAlternative.step st k j = .ok st := by
  simp [MostRelevantMissedAlternative.knownKeys] at h
  obtain ⟨h1, h2, h3⟩ := h
  unfold MostRelevantMissedAlternative.step
  rw [if_neg h1, if_neg h2, if_neg h3]

theorem Reference_step_unknown (st : ReferenceSt) (k : String) (j : Json)
    (h : k ∉ Reference.knownKeys) : Reference.step st k j = .ok st := by
  simp [Reference.knownKeys] at h
  obtain ⟨h1, h2, h3, h4, h5, h6⟩ := h
  unfold Reference.step
  rw [if_neg h1, if_neg h2, if_neg h3, if_neg h4, if_neg h5, if_neg h6]

theorem FollowupPrompt_step_unknown (st : FollowupPromptSt) (k : String) (j : Json)
    (h : k ∉ FollowupPrompt.knownKeys) : FollowupPrompt.step st k j = .ok st := by
  simp [FollowupPrompt.knownKeys] at h
  obtain ⟨h1, h2⟩ := h
  unfold FollowupPrompt.step
  rw [if_neg h1, if_neg h2]

theorem ProgrammingLanguage_step_unknown (st : ProgrammingLanguageSt) (k : String)
    (j : Json) (h : k ∉ ProgrammingLanguage.knownKeys) :
    ProgrammingLanguage.step st k j = .ok st := by
  simp [ProgrammingLanguage.knownKeys] at h
  unfold ProgrammingLanguage.step
  rw [if_neg h]

theorem Customization_step_unknown (st : CustomizationSt) (k : String) (j : Json)
    (h : k ∉ Customization.knownKeys) : Customization.step st k j = .ok st := by
  simp [Customization.knownKeys] at h
  obtain ⟨h1, h2⟩ := h
  unfold Customization.step
  rw [if_neg h1, if_neg h2]

theorem CodeQuery_step_unknown (st : CodeQuerySt) (k : String) (j : Json)
    (h : k ∉ CodeQuery.knownKeys) : CodeQuery.step st k j = .ok st := by
  simp [CodeQuery.knownKeys] at h
  obtain ⟨h1, h2, h3⟩ := h
  unfold CodeQuery.step
  rw [if_neg h1, if_neg h2, if_neg h3]

/-- Frame property of one `ContentSpan` field-loop step. -/
theorem ContentSpan_step_frame {st st1 : ContentSpanSt} {k : String} {j : Json}
    (h : ContentSpan.step st k j = .ok st1) :
    (k ≠ "start" → st1.start = st.start) ∧ (k ≠ "end" → st1.«end» = st.«end») := by
  unfold ContentSpan.step at h
  split_ifs at h with h1 h2
  · obtain ⟨v, -, -, rfl⟩ := readSlot_ok h
    exact ⟨fun hc => absurd h1 hc, fun _ => rfl⟩
  · obtain ⟨v, -, -, rfl⟩ := readSlot_ok h
    exact ⟨fun _ => rfl, fun hc => absurd h2 hc⟩
  · injection h with h
    subst h
    exact ⟨fun _ => rfl, fun _ => rfl⟩

/-- Frame property of one `SupplementaryWebLink` field-loop step. -/
theorem SupplementaryWebLink_step_frame {st st1 : SupplementaryWebLinkSt} {k : String}
    {j : Json} (h : SupplementaryWebLink.step st k j = .ok st1) :
    (k ≠ "url" → st1.url = st.url) ∧ (k ≠ "title" → st1.title = st.title) ∧
    (k ≠ "snippet" → st1.snippet = st.snippet) ∧ (k ≠ "score" → st1.score = st.score) := by
  unfold SupplementaryWebLink.step at h
  split_ifs at h with h1 h2 h3 h4
  · obtain ⟨v, -, -, rfl⟩ := readSlot_ok h
    exact ⟨fun hc => absurd h1 hc, fun _ => rfl, fun _ => rfl, fun _ => rfl⟩
  · obtain ⟨v, -, -, rfl⟩ := readSlot_ok h
    exact ⟨fun _ => rfl, fun hc => absurd h2 hc, fun _ => rfl, fun _ => rfl⟩
  · obtain ⟨v, -, -, rfl⟩ := readSlot_ok h
    exact ⟨fun _ => rfl, fun _ => rfl, fun hc => absurd h3 hc, fun _ => rfl⟩
  · obtain ⟨v, -, -, rfl⟩ := readSlot_ok h
    exact ⟨fun _ => rfl, fun _ => rfl, fun _ => rfl, fun hc => absurd h4 hc⟩
  · injection h with h
    subst h
    exact ⟨fun _ => rfl, fun _ => rfl, fun _ => rfl, fun _ => rfl⟩

/-- Frame property of one `MostRelevantMissedAlternative` field-loop step. -/
theorem MostRelevantMissedAlternative_step_frame {st st1 : MostRelevantMissedAlternativeSt}
    {k : String} {j : Json} (h : MostRelevantMissedAlternative.step st k j = .ok st1) :
    (k ≠ "url" → st1.url = st.url) ∧
    (k ≠ "licenseName" → st1.license_name = st.license_name) ∧
    (k ≠ "repository" → st1.repository = st.repository) := by
  unfold MostRelevantMissedAlternative.step at h
  split_ifs at h with h1 h2 h3
  · obtain ⟨v, -, -, rfl⟩ := readSlot_ok h
    exact ⟨fun hc => absurd h1 hc, fun _ => rfl, fun _ => rfl⟩
  · obtain ⟨v, -, -, rfl⟩ := readSlot_ok h
    exact ⟨fun _ => rfl, fun hc => absurd h2 hc, fun _ => rfl⟩
  · obtain ⟨v, -, -, rfl⟩ := readSlot_ok h
    exact ⟨fun _ => rfl, fun _ => rfl, fun hc => absurd h3 hc⟩
  · injection h with h
    subst h
    exact ⟨fun _ => rfl, fun _ => rfl, fun _ => rfl⟩

/-- Frame property of one `Reference` field-loop step. -/
theorem Reference_step_frame {st st1 : ReferenceSt} {k : String} {j : Json}
    (h : Reference.step st k j = .ok st1) :
    (k ≠ "licenseName" → st1.license_name = st.license_name) ∧
    (k ≠ "repository" → st1.repository = st.repository) ∧
    (k ≠ "url" → st1.url = st.url) ∧
    (k ≠ "information" → st1.information = st.information) ∧
    (k ≠ "recommendationContentSpan" →
      st1.recommendation_content_span = st.recommendation_content_span) ∧
    (k ≠ "mostRelevantMissedAlternative" →
      st1.most_relevant_missed_alternative = st.most_relevant_missed_alternative) := by
  unfold Reference.step at h
  split_ifs at h with h1 h2 h3 h4 h5 h6
  · obtain ⟨v, -, -, rfl⟩ := readSlot_ok h
    exact ⟨fun hc => absurd h1 hc, fun _ => rfl, fun _ => rfl, fun _ => rfl,
      fun _ => rfl, fun _ => rfl⟩
  · obtain ⟨v, -, -, rfl⟩ := readSlot_ok h
    exact ⟨fun _ => rfl, fun hc => absurd h2 hc, fun _ => rfl, fun _ => rfl,
      fun _ => rfl, fun _ => rfl⟩
  · obtain ⟨v, -, -, rfl⟩ := readSlot_ok h
    exact ⟨fun _ => rfl, fun _ => rfl, fun hc => absurd h3 hc, fun _ => rfl,
      fun _ => rfl, fun _ => rfl⟩
  · obtain ⟨v, -, -, rfl⟩ := readSlot_ok h
    exact ⟨fun _ => rfl, fun _ => rfl, fun _ => rfl, fun hc => absurd h4 hc,
      fun _ => rfl, fun _ => rfl⟩
  · obtain ⟨v, -, -, rfl⟩ := readSlot_ok h
    exact ⟨fun _ => rfl, fun _ => rfl, fun _ => rfl, fun _ => rfl,
      fun hc => absurd h5 hc, fun _ => rfl⟩
  · obtain ⟨v, -, -, rfl⟩ := readSlot_ok h
    exact ⟨fun _ => rfl, fun _ => rfl, fun _ => rfl, fun _ => rfl, fun _ => rfl,
      fun hc => absurd h6 hc⟩
  · injection h with h
    subst h
    exact ⟨fun _ => rfl, fun _ => rfl, fun _ => rfl, fun _ => rfl, fun _ => rfl,
      fun _ => rfl⟩

/-- Frame property of one `FollowupPrompt` field-loop step. -/
theorem FollowupPrompt_step_frame {st st1 : FollowupPromptSt} {k : String} {j : Json}
    (h : FollowupPrompt.step st k j = .ok st1) :
    (k ≠ "content" → st1.content = st.content) ∧
    (k ≠ "userIntent" → st1.user_intent = st.user_intent) := by
  unfold FollowupPrompt.step at h
  split_ifs at h with h1 h2
  · obtain ⟨v, -, -, rfl⟩ := readSlot_ok h
    exact ⟨fun hc => absurd h1 hc, fun _ => rfl⟩
  · obtain ⟨v, -, -, rfl⟩ := readSlot_ok h
    exact ⟨fun _ => rfl, fun hc => absurd h2 hc⟩
  · injection h with h
    subst h
    exact ⟨fun _ => rfl, fun _ => rfl⟩

/-- Frame property of one `ProgrammingLanguage` field-loop step. -/
theorem ProgrammingLanguage_step_frame {st st1 : ProgrammingLanguageSt} {k : String}
    {j : Json} (h : ProgrammingLanguage.step st k j = .ok st1) :
    k ≠ "languageName" → st1.language_name = st.language_name := by
  unfold ProgrammingLanguage.step at h
  split_ifs at h with h1
  · obtain ⟨v, -, -, rfl⟩ := readSlot_ok h
    exact fun hc => absurd h1 hc
  · injection h with h
    subst h
    exact fun _ => rfl

/-- Frame property of one `Customization` field-loop step. -/
theorem Customization_step_frame {st st1 : CustomizationSt} {k : String} {j : Json}
    (h : Customization.step st k j = .ok st1) :
    (k ≠ "arn" → st1.arn = st.arn) ∧ (k ≠ "name" → st1.name = st.name) := by
  unfold Customization.step at h
  split_ifs at h with h1 h2
  · obtain ⟨v, -, -, rfl⟩ := readSlot_ok h
    exact ⟨fun hc => absurd h1 hc, fun _ => rfl⟩
  · obtain ⟨v, -, -, rfl⟩ := readSlot_ok h
    exact ⟨fun _ => rfl, fun hc => absurd h2 hc⟩
  · injection h with h
    subst h
    exact ⟨fun _ => rfl, fun _ => rfl⟩

/-- Frame property of one `CodeQuery` field-loop step. -/
theorem CodeQuery_step_frame {st st1 : CodeQuerySt} {k : String} {j : Json}
    (h : CodeQuery.step st k j = .ok st1) :
    (k ≠ "codeQueryId" → st1.code_query_id = st.code_query_id) ∧
    (k ≠ "programmingLanguage" → st1.programming_language = st.programming_language) ∧
    (k ≠ "userInputMessageId" → st1.user_input_message_id = st.user_input_message_id) := by
  unfold CodeQuery.step at h
  split_ifs at h with h1 h2 h3
  · obtain ⟨v, -, -, rfl⟩ := readSlot_ok h
    exact ⟨fun hc => absurd h1 hc, fun _ => rfl, fun _ => rfl⟩
  · obtain ⟨v, -, -, rfl⟩ := readSlot_ok h
    exact ⟨fun _ => rfl, fun hc => absurd h2 hc, fun _ => rfl⟩
  · obtain ⟨v, -, -, rfl⟩ := readSlot_ok h
    exact ⟨fun _ => rfl, fun _ => rfl, fun hc => absurd h3 hc⟩
  · injection h with h
    subst h
    exact ⟨fun _ => rfl, fun _ => rfl, fun _ => rfl⟩

/-- A field whose accumulator slot no step outside its key can touch, whose
slot starts unseen, and which finalization maps from an unseen slot to an
absent field, is absent whenever its key never occurs in the input. -/
theorem absent_of_frame {σ τ α β : Type} (step : σ → String → Json → Except ParseError σ)
    (init : σ) (fin : σ → Except ParseError τ) (key : String)
    (f : σ → Option α) (g : τ → Option β)
    (hstep : ∀ st k j st1, step st k j = .ok st1 → k ≠ key → f st1 = f st)
    (hinit : f init = none)
    (hfin : ∀ st v, fin st = .ok v → f st = none → g v = none)
    {kvs : Fields} {st : σ} {v : τ}
    (hrun : runFields step kvs init = .ok st)
    (hfinv : fin st = .ok v)
    (hk : ∀ p ∈ kvs, p.1 ≠ key) : g v = none := by
  have hf : f st = f init := runFields_frame step f key hstep kvs init st hrun hk
  exact hfin st v hfinv (hf.trans hinit)

/-- Membership in the entries contributed by one optional field. -/
theorem mem_optField {k : String} {x : Json} {k2 : String} {o : Option Json} :
    (k, x) ∈ optField k2 o ↔ k = k2 ∧ o = some x := by
  cases o with
  | none => simp [optField]
  | some j => simp [optField, Prod.ext_iff, eq_comm, and_comm]

theorem ContentSpan_fromJson_obj_ok {kvs : Fields} {v : ContentSpan}
    (h : ContentSpan.fromJson (.obj kvs) = .ok v) :
    ∃ st, runFields ContentSpan.step kvs ContentSpan.stInit = .ok st ∧
      ContentSpan.finalize st = .ok v := by
  simp only [ContentSpan.fromJson] at h
  cases hr : runFields ContentSpan.step kvs ContentSpan.stInit with
  | error e => rw [hr] at h; cases h
  | ok st => rw [hr] at h; exact ⟨st, rfl, h⟩

theorem SupplementaryWebLink_fromJson_obj_ok {kvs : Fields} {v : SupplementaryWebLink}
    (h : SupplementaryWebLink.fromJson (.obj kvs) = .ok v) :
    ∃ st, runFields SupplementaryWebLink.step kvs SupplementaryWebLink.stInit = .ok st ∧
      SupplementaryWebLink.finalize st = .ok v := by
  simp only [SupplementaryWebLink.fromJson] at h
  cases hr : runFields SupplementaryWebLink.step kvs SupplementaryWebLink.stInit with
  | error e => rw [hr] at h; cases h
  | ok st => rw [hr] at h; exact ⟨st, rfl, h⟩

theorem MostRelevantMissedAlternative_fromJson_obj_ok {kvs : Fields}
    {v : MostRelevantMissedAlternative}
    (h : MostRelevantMissedAlternative.fromJson (.obj kvs) = .ok v) :
    ∃ st, runFields MostRelevantMissedAlternative.step kvs
        MostRelevantMissedAlternative.stInit = .ok st ∧
      MostRelevantMissedAlternative.finalize st = .ok v := by
  simp only [MostRelevantMissedAlternative.fromJson] at h
  cases hr : runFields MostRelevantMissedAlternative.step kvs
      MostRelevantMissedAlternative.stInit with
  | error e => rw [hr] at h; cases h
  | ok st => rw [hr] at h; exact ⟨st, rfl, h⟩

theorem Reference_fromJson_obj_ok {kvs : Fields} {v : Reference}
    (h : Reference.fromJson (.obj kvs) = .ok v) :
    ∃ st, runFields Reference.step kvs Reference.stInit = .ok st ∧
      Reference.finalize st = .ok v := by
  simp only [Reference.fromJson] at h
  cases hr : runFields Reference.step kvs Reference.stInit with
  | error e => rw [hr] at h; cases h
  | ok st => rw [hr] at h; exact ⟨st, rfl, h⟩

theorem FollowupPrompt_fromJson_obj_ok {kvs : Fields} {v : FollowupPrompt}
    (h : FollowupPrompt.fromJson (.obj kvs) = .ok v) :
    ∃ st, runFields FollowupPrompt.step kvs FollowupPrompt.stInit = .ok st ∧
      FollowupPrompt.finalize st = .ok v := by
  simp only [FollowupPrompt.fromJson] at h
  cases hr : runFields FollowupPrompt.step kvs FollowupPrompt.stInit with
  | error e => rw [hr] at h; cases h
  | ok st => rw [hr] at h; exact ⟨st, rfl, h⟩

theorem ProgrammingLanguage_fromJson_obj_ok {kvs : Fields} {v : ProgrammingLanguage}
    (h : ProgrammingLanguage.fromJson (.obj kvs) = .ok v) :
    ∃ st, runFields ProgrammingLanguage.step kvs ProgrammingLanguage.stInit = .ok st ∧
      ProgrammingLanguage.finalize st = .ok v := by
  simp only [ProgrammingLanguage.fromJson] at h
  cases hr : runFields ProgrammingLanguage.step kvs ProgrammingLanguage.stInit with
  | error e => rw [hr] at h; cases h
  | ok st => rw [hr] at h; exact ⟨st, rfl, h⟩

theorem Customization_fromJson_obj_ok {kvs : Fields} {v : Customization}
    (h : Customization.fromJson (.obj kvs) = .ok v) :
    ∃ st, runFields Customization.step kvs Customization.stInit = .ok st ∧
      Customization.finalize st = .ok v := by
  simp only [Customization.fromJson] at h
  cases hr : runFields Customization.step kvs Customization.stInit with
  | error e => rw [hr] at h; cases h
  | ok st => rw [hr] at h; exact ⟨st, rfl, h⟩

theorem CodeQuery_fromJson_obj_ok {kvs : Fields} {v : CodeQuery}
    (h : CodeQuery.fromJson (.obj kvs) = .ok v) :
    ∃ st, runFields CodeQuery.step kvs CodeQuery.stInit = .ok st ∧
      CodeQuery.finalize st = .ok v := by
  simp only [CodeQuery.fromJson] at h
  cases hr : runFields CodeQuery.step kvs CodeQuery.stInit with
  | error e => rw [hr] at h; cases h
  | ok st => rw [hr] at h; exact ⟨st, rfl, h⟩

theorem SupplementaryWebLink_finalize_ok {st : SupplementaryWebLinkSt}
    {v : SupplementaryWebLink} (h : SupplementaryWebLink.finalize st = .ok v) :
    st.url = some v.url ∧ v.title = st.title.getD none ∧
    v.snippet = st.snippet.getD none ∧ v.score = st.score.getD none := by
  unfold SupplementaryWebLink.finalize at h
  cases hu : st.url with
  | none => rw [hu] at h; cases h
  | some u =>
    rw [hu] at h
    injection h with h
    subst h
    exact ⟨rfl, rfl, rfl, rfl⟩

theorem MostRelevantMissedAlternative_finalize_ok {st : MostRelevantMissedAlternativeSt}
    {v : MostRelevantMissedAlternative}
    (h : MostRelevantMissedAlternative.finalize st = .ok v) :
    st.url = some v.url ∧ v.license_name = st.license_name.getD none ∧
    v.repository = st.repository.getD none := by
  unfold MostRelevantMissedAlternative.finalize at h
  cases hu : st.url with
  | none => rw [hu] at h; cases h
  | some u =>
    rw [hu] at h
    injection h with h
    subst h
    exact ⟨rfl, rfl, rfl⟩

theorem Reference_finalize_ok {st : ReferenceSt} {v : Reference}
    (h : Reference.finalize st = .ok v) :
    v.license_name = st.license_name.getD none ∧
    v.repository = st.repository.getD none ∧
    v.url = st.url.getD none ∧
    v.information = st.information.getD none ∧
    v.recommendation_content_span = st.recommendation_content_span.getD none ∧
    v.most_relevant_missed_alternative = st.most_relevant_missed_alternative.getD none := by
  unfold Reference.finalize at h
  injection h with h
  subst h
  exact ⟨rfl, rfl, rfl, rfl, rfl, rfl⟩

theorem FollowupPrompt_finalize_ok {st : FollowupPromptSt} {v : FollowupPrompt}
    (h : FollowupPrompt.finalize st = .ok v) :
    st.content = some v.content ∧ v.user_intent = st.user_intent.getD none := by
  unfold FollowupPrompt.finalize at h
  cases hc : st.content with
  | none => rw [hc] at h; cases h
  | some c =>
    rw [hc] at h
    injection h with h
    subst h
    exact ⟨rfl, rfl⟩

theorem Customization_finalize_ok {st : CustomizationSt} {v : Customization}
    (h : Customization.finalize st = .ok v) :
    st.arn = some v.arn ∧ v.name = st.name.getD none := by
  unfold Customization.finalize at h
  cases ha : st.arn with
  | none => rw [ha] at h; cases h
  | some a =>
    rw [ha] at h
    injection h with h
    subst h
    exact ⟨rfl, rfl⟩

theorem CodeQuery_finalize_ok {st : CodeQuerySt} {v : CodeQuery}
    (h : CodeQuery.finalize st = .ok v) :
    st.code_query_id = some v.code_query_id ∧
    v.programming_language = st.programming_language.getD none ∧
    v.user_input_message_id = st.user_input_message_id.getD none := by
  unfold CodeQuery.finalize at h
  cases hi : st.code_query_id with
  | none => rw [hi] at h; cases h
  | some i =>
    rw [hi] at h
    injection h with h
    subst h
    exact ⟨rfl, rfl, rfl⟩

/-- A payload with no `url` key can never deserialize into a
`SupplementaryWebLink`. -/
theorem SupplementaryWebLink.missing_url {kvs : Fields}
    (hk : ∀ p ∈ kvs, p.1 ≠ "url") :
    ∀ v, SupplementaryWebLink.fromJson (.obj kvs) ≠ .ok v := by
  intro v h
  obtain ⟨st, hrun, hfin⟩ := SupplementaryWebLink_fromJson_obj_ok h
  have hf : st.url = none := by
    have := runFields_frame SupplementaryWebLink.step (fun s => s.url) "url"
      (fun st k j st1 hs hne => (SupplementaryWebLink_step_frame hs).1 hne)
      kvs SupplementaryWebLink.stInit st hrun hk
    exact this.trans rfl
  unfold SupplementaryWebLink.finalize at hfin
  rw [hf] at hfin
  cases hfin

/-- Deserializing input without the key "title" leaves `title` absent. -/
theorem SupplementaryWebLink_absent_title {kvs : Fields} {v : SupplementaryWebLink}
    (hk : ∀ p ∈ kvs, p.1 ≠ "title")
    (h : SupplementaryWebLink.fromJson (.obj kvs) = .ok v) : v.title = none := by
  obtain ⟨st, hrun, hfin⟩ := SupplementaryWebLink_fromJson_obj_ok h
  exact absent_of_frame _ _ _ "title" (fun s => s.title) (fun w => w.title)
    (fun st k j st1 hs hne => (SupplementaryWebLink_step_frame hs).2.1 hne) rfl
    (fun st w hf hn => by
      have hn2 : st.title = none := hn
      have ht := (SupplementaryWebLink_finalize_ok hf).2.1
      show w.title = none
      rw [ht, hn2]
      rfl)
    hrun hfin hk

/-- Serializing an instance with `title` absent omits the key "title". -/
theorem SupplementaryWebLink_omit_title (v : SupplementaryWebLink) (h : v.title = none) :
    "title" ∉ v.toJson.topKeys := by
  simp [SupplementaryWebLink.toJson, Json.topKeys, mem_optField, h]

/-- Deserializing input without the key "snippet" leaves `snippet` absent. -/
theorem SupplementaryWebLink_absent_snippet {kvs : Fields} {v : SupplementaryWebLink}
    (hk : ∀ p ∈ kvs, p.1 ≠ "snippet")
    (h : SupplementaryWebLink.fromJson (.obj kvs) = .ok v) : v.snippet = none := by
  obtain ⟨st, hrun, hfin⟩ := SupplementaryWebLink_fromJson_obj_ok h
  exact absent_of_frame _ _ _ "snippet" (fun s => s.snippet) (fun w => w.snippet)
    (fun st k j st1 hs hne => (SupplementaryWebLink_step_frame hs).2.2.1 hne) rfl
    (fun st w hf hn => by
      have hn2 : st.snippet = none := hn
      have ht := (SupplementaryWebLink_finalize_ok hf).2.2.1
      show w.snippet = none
      rw [ht, hn2]
      rfl)
    hrun hfin hk

/-- Serializing an instance with `snippet` absent omits the key "snippet". -/
theorem SupplementaryWebLink_omit_snippet (v : SupplementaryWebLink) (h : v.snippet = none) :
    "snippet" ∉ v.toJson.topKeys := by
  simp [SupplementaryWebLink.toJson, Json.topKeys, mem_optField, h]

/-- Deserializing input without the key "score" leaves `score` absent. -/
theorem SupplementaryWebLink_absent_score {kvs : Fields} {v : SupplementaryWebLink}
    (hk : ∀ p ∈ kvs, p.1 ≠ "score")
    (h : SupplementaryWebLink.fromJson (.obj kvs) = .ok v) : v.score = none := by
  obtain ⟨st, hrun, hfin⟩ := SupplementaryWebLink_fromJson_obj_ok h
  exact absent_of_frame _ _ _ "score" (fun s => s.score) (fun w => w.score)
    (fun st k j st1 hs hne => (SupplementaryWebLink_step_frame hs).2.2.2 hne) rfl
    (fun st w hf hn => by
      have hn2 : st.score = none := hn
      have ht := (SupplementaryWebLink_finalize_ok hf).2.2.2
      show w.score = none
      rw [ht, hn2]
      rfl)
    hrun hfin hk

/-- Serializing an instance with `score` absent omits the key "score". -/
theorem SupplementaryWebLink_omit_score (v : SupplementaryWebLink) (h : v.score = none) :
    "score" ∉ v.toJson.topKeys := by
  simp [SupplementaryWebLink.toJson, Json.topKeys, mem_optField, h]

/-- Deserializing input without the key "licenseName" leaves `license_name` absent. -/
theorem MostRelevantMissedAlternative_absent_license_name {kvs : Fields} {v : MostRelevantMissedAlternative}
    (hk : ∀ p ∈ kvs, p.1 ≠ "licenseName")
    (h : MostRelevantMissedAlternative.fromJson (.obj kvs) = .ok v) : v.license_name = none := by
  obtain ⟨st, hrun, hfin⟩ := MostRelevantMissedAlternative_fromJson_obj_ok h
  exact absent_of_frame _ _ _ "licenseName" (fun s => s.license_name) (fun w => w.license_name)
    (fun st k j st1 hs hne => (MostRelevantMissedAlternative_step_frame hs).2.1 hne) rfl
    (fun st w hf hn => by
      have hn2 : st.license_name = none := hn
      have ht := (MostRelevantMissedAlternative_finalize_ok hf).2.1
      show w.license_name = none
      rw [ht, hn2]
      rfl)
    hrun hfin hk

/-- Serializing an instance with `license_name` absent omits the key "licenseName". -/
theorem MostRelevantMissedAlternative_omit_license_name (v : MostRelevantMissedAlternative) (h : v.license_name = none) :
    "licenseName" ∉ v.toJson.topKeys := by
  simp [MostRelevantMissedAlternative.toJson, Json.topKeys, mem_optField, h]

/-- Deserializing input without the key "repository" leaves `repository` absent. -/
theorem MostRelevantMissedAlternative_absent_repository {kvs : Fields} {v : MostRelevantMissedAlternative}
    (hk : ∀ p ∈ kvs, p.1 ≠ "repository")
    (h : MostRelevantMissedAlternative.fromJson (.obj kvs) = .ok v) : v.repository = none := by
  obtain ⟨st, hrun, hfin⟩ := MostRelevantMissedAlternative_fromJson_obj_ok h
  exact absent_of_frame _ _ _ "repository" (fun s => s.repository) (fun w => w.repository)
    (fun st k j st1 hs hne => (MostRelevantMissedAlternative_step_frame hs).2.2 hne) rfl
    (fun st w hf hn => by
      have hn2 : st.repository = none := hn
      have ht := (MostRelevantMissedAlternative_finalize_ok hf).2.2
      show w.repository = none
      rw [ht, hn2]
      rfl)
    hrun hfin hk

/-- Serializing an instance with `repository` absent omits the key "repository". -/
theorem MostRelevantMissedAlternative_omit_repository (v : MostRelevantMissedAlternative) (h : v.repository = none) :
    "repository" ∉ v.toJson.topKeys := by
  simp [MostRelevantMissedAlternative.toJson, Json.topKeys, mem_optField, h]

/-- Deserializing input without the key "licenseName" leaves `license_name` absent. -/
theorem Reference_absent_license_name {kvs : Fields} {v : Reference}
    (hk : ∀ p ∈ kvs, p.1 ≠ "licenseName")
    (h : Reference.fromJson (.obj kvs) = .ok v) : v.license_name = none := by
  obtain ⟨st, hrun, hfin⟩ := Reference_fromJson_obj_ok h
  exact absent_of_frame _ _ _ "licenseName" (fun s => s.license_name) (fun w => w.license_name)
    (fun st k j st1 hs hne => (Reference_step_frame hs).1 hne) rfl
    (fun st w hf hn => by
      have hn2 : st.license_name = none := hn
      have ht := (Reference_finalize_ok hf).1
      show w.license_name = none
      rw [ht, hn2]
      rfl)
    hrun hfin hk

/-- Serializing an instance with `license_name` absent omits the key "licenseName". -/
theorem Reference_omit_license_name (v : Reference) (h : v.license_name = none) :
    "licenseName" ∉ v.toJson.topKeys := by
  simp [Reference.toJson, Json.topKeys, mem_optField, h]

/-- Deserializing input without the key "repository" leaves `repository` absent. -/
theorem Reference_absent_repository {kvs : Fields} {v : Reference}
    (hk : ∀ p ∈ kvs, p.1 ≠ "repository")
    (h : Reference.fromJson (.obj kvs) = .ok v) : v.repository = none := by
  obtain ⟨st, hrun, hfin⟩ := Reference_fromJson_obj_ok h
  exact absent_of_frame _ _ _ "repository" (fun s => s.repository) (fun w => w.repository)
    (fun st k j st1 hs hne => (Reference_step_frame hs).2.1 hne) rfl
    (fun st w hf hn => by
      have hn2 : st.repository = none := hn
      have ht := (Reference_finalize_ok hf).2.1
      show w.repository = none
      rw [ht, hn2]
      rfl)
    hrun hfin hk

/-- Serializing an instance with `repository` absent omits the key "repository". -/
theorem Reference_omit_repository (v : Reference) (h : v.repository = none) :
    "repository" ∉ v.toJson.topKeys := by
  simp [Reference.toJson, Json.topKeys, mem_optField, h]

/-- Deserializing input without the key "url" leaves `url` absent. -/
theorem Reference_absent_url {kvs : Fields} {v : Reference}
    (hk : ∀ p ∈ kvs, p.1 ≠ "url")
    (h : Reference.fromJson (.obj kvs) = .ok v) : v.url = none := by
  obtain ⟨st, hrun, hfin⟩ := Reference_fromJson_obj_ok h
  exact absent_of_frame _ _ _ "url" (fun s => s.url) (fun w => w.url)
    (fun st k j st1 hs hne => (Reference_step_frame hs).2.2.1 hne) rfl
    (fun st w hf hn => by
      have hn2 : st.url = none := hn
      have ht := (Reference_finalize_ok hf).2.2.1
      show w.url = none
      rw [ht, hn2]
      rfl)
    hrun hfin hk

/-- Serializing an instance with `url` absent omits the key "url". -/
theorem Reference_omit_url (v : Reference) (h : v.url = none) :
    "url" ∉ v.toJson.topKeys := by
  simp [Reference.toJson, Json.topKeys, mem_optField, h]

/-- Deserializing input without the key "information" leaves `information` absent. -/
theorem Reference_absent_information {kvs : Fields} {v : Reference}
    (hk : ∀ p ∈ kvs, p.1 ≠ "information")
    (h : Reference.fromJson (.obj kvs) = .ok v) : v.information = none := by
  obtain ⟨st, hrun, hfin⟩ := Reference_fromJson_obj_ok h
  exact absent_of_frame _ _ _ "information" (fun s => s.information) (fun w => w.information)
    (fun st k j st1 hs hne => (Reference_step_frame hs).2.2.2.1 hne) rfl
    (fun st w hf hn => by
      have hn2 : st.information = none := hn
      have ht := (Reference_finalize_ok hf).2.2.2.1
      show w.information = none
      rw [ht, hn2]
      rfl)
    hrun hfin hk

/-- Serializing an instance with `information` absent omits the key "information". -/
theorem Reference_omit_information (v : Reference) (h : v.information = none) :
    "information" ∉ v.toJson.topKeys := by
  simp [Reference.toJson, Json.topKeys, mem_optField, h]

/-- Deserializing input without the key "recommendationContentSpan" leaves `recommendation_content_span` absent. -/
theorem Reference_absent_recommendation_content_span {kvs : Fields} {v : Reference}
    (hk : ∀ p ∈ kvs, p.1 ≠ "recommendationContentSpan")
    (h : Reference.fromJson (.obj kvs) = .ok v) : v.recommendation_content_span = none := by
  obtain ⟨st, hrun, hfin⟩ := Reference_fromJson_obj_ok h
  exact absent_of_frame _ _ _ "recommendationContentSpan" (fun s => s.recommendation_content_span) (fun w => w.recommendation_content_span)
    (fun st k j st1 hs hne => (Reference_step_frame hs).2.2.2.2.1 hne) rfl
    (fun st w hf hn => by
      have hn2 : st.recommendation_content_span = none := hn
      have ht := (Reference_finalize_ok hf).2.2.2.2.1
      show w.recommendation_content_span = none
      rw [ht, hn2]
      rfl)
    hrun hfin hk

/-- Serializing an instance with `recommendation_content_span` absent omits the key "recommendationContentSpan". -/
theorem Reference_omit_recommendation_content_span (v : Reference) (h : v.recommendation_content_span = none) :
    "recommendationContentSpan" ∉ v.toJson.topKeys := by
  simp [Reference.toJson, Json.topKeys, mem_optField, h]

/-- Deserializing input without the key "mostRelevantMissedAlternative" leaves `most_relevant_missed_alternative` absent. -/
theorem Reference_absent_most_relevant_missed_alternative {kvs : Fields} {v : Reference}
    (hk : ∀ p ∈ kvs, p.1 ≠ "mostRelevantMissedAlternative")
    (h : Reference.fromJson (.obj kvs) = .ok v) : v.most_relevant_missed_alternative = none := by
  obtain ⟨st, hrun, hfin⟩ := Reference_fromJson_obj_ok h
  exact absent_of_frame _ _ _ "mostRelevantMissedAlternative" (fun s => s.most_relevant_missed_alternative) (fun w => w.most_relevant_missed_alternative)
    (fun st k j st1 hs hne => (Reference_step_frame hs).2.2.2.2.2 hne) rfl
    (fun st w hf hn => by
      have hn2 : st.most_relevant_missed_alternative = none := hn
      have ht := (Reference_finalize_ok hf).2.2.2.2.2
      show w.most_relevant_missed_alternative = none
      rw [ht, hn2]
      rfl)
    hrun hfin hk

/-- Serializing an instance with `most_relevant_missed_alternative` absent omits the key "mostRelevantMissedAlternative". -/
theorem Reference_omit_most_relevant_missed_alternative (v : Reference) (h : v.most_relevant_missed_alternative = none) :
    "mostRelevantMissedAlternative" ∉ v.toJson.topKeys := by
  simp [Reference.toJson, Json.topKeys, mem_optField, h]

/-- Deserializing input without the key "userIntent" leaves `user_intent` absent. -/
theorem FollowupPrompt_absent_user_intent {kvs : Fields} {v : FollowupPrompt}
    (hk : ∀ p ∈ kvs, p.1 ≠ "userIntent")
    (h : FollowupPrompt.fromJson (.obj kvs) = .ok v) : v.user_intent = none := by
  obtain ⟨st, hrun, hfin⟩ := FollowupPrompt_fromJson_obj_ok h
  exact absent_of_frame _ _ _ "userIntent" (fun s => s.user_intent) (fun w => w.user_intent)
    (fun st k j st1 hs hne => (FollowupPrompt_step_frame hs).2 hne) rfl
    (fun st w hf hn => by
      have hn2 : st.user_intent = none := hn
      have ht := (FollowupPrompt_finalize_ok hf).2
      show w.user_intent = none
      rw [ht, hn2]
      rfl)
    hrun hfin hk

/-- Serializing an instance with `user_intent` absent omits the key "userIntent". -/
theorem FollowupPrompt_omit_user_intent (v : FollowupPrompt) (h : v.user_intent = none) :
    "userIntent" ∉ v.toJson.topKeys := by
  simp [FollowupPrompt.toJson, Json.topKeys, mem_optField, h]

/-- Deserializing input without the key "name" leaves `name` absent. -/
theorem Customization_absent_name {kvs : Fields} {v : Customization}
    (hk : ∀ p ∈ kvs, p.1 ≠ "name")
    (h : Customization.fromJson (.obj kvs) = .ok v) : v.name = none := by
  obtain ⟨st, hrun, hfin⟩ := Customization_fromJson_obj_ok h
  exact absent_of_frame _ _ _ "name" (fun s => s.name) (fun w => w.name)
    (fun st k j st1 hs hne => (Customization_step_frame hs).2 hne) rfl
    (fun st w hf hn => by
      have hn2 : st.name = none := hn
      have ht := (Customization_finalize_ok hf).2
      show w.name = none
      rw [ht, hn2]
      rfl)
    hrun hfin hk

/-- Serializing an instance with `name` absent omits the key "name". -/
theorem Customization_omit_name (v : Customization) (h : v.name = none) :
    "name" ∉ v.toJson.topKeys := by
  simp [Customization.toJson, Json.topKeys, mem_optField, h]

/-- Deserializing input without the key "programmingLanguage" leaves `programming_language` absent. -/
theorem CodeQuery_absent_programming_language {kvs : Fields} {v : CodeQuery}
    (hk : ∀ p ∈ kvs, p.1 ≠ "programmingLanguage")
    (h : CodeQuery.fromJson (.obj kvs) = .ok v) : v.programming_language = none := by
  obtain ⟨st, hrun, hfin⟩ := CodeQuery_fromJson_obj_ok h
  exact absent_of_frame _ _ _ "programmingLanguage" (fun s => s.programming_language) (fun w => w.programming_language)
    (fun st k j st1 hs hne => (CodeQuery_step_frame hs).2.1 hne) rfl
    (fun st w hf hn => by
      have hn2 : st.programming_language = none := hn
      have ht := (CodeQuery_finalize_ok hf).2.1
      show w.programming_language = none
      rw [ht, hn2]
      rfl)
    hrun hfin hk

/-- Serializing an instance with `programming_language` absent omits the key "programmingLanguage". -/
theorem CodeQuery_omit_programming_language (v : CodeQuery) (h : v.programming_language = none) :
    "programmingLanguage" ∉ v.toJson.topKeys := by
  simp [CodeQuery.toJson, Json.topKeys, mem_optField, h]

/-- Deserializing input without the key "userInputMessageId" leaves `user_input_message_id` absent. -/
theorem CodeQuery_absent_user_input_message_id {kvs : Fields} {v : CodeQuery}
    (hk : ∀ p ∈ kvs, p.1 ≠ "userInputMessageId")
    (h : CodeQuery.fromJson (.obj kvs) = .ok v) : v.user_input_message_id = none := by
  obtain ⟨st, hrun, hfin⟩ := CodeQuery_fromJson_obj_ok h
  exact absent_of_frame _ _ _ "userInputMessageId" (fun s => s.user_input_message_id) (fun w => w.user_input_message_id)
    (fun st k j st1 hs hne => (CodeQuery_step_frame hs).2.2 hne) rfl
    (fun st w hf hn => by
      have hn2 : st.user_input_message_id = none := hn
      have ht := (CodeQuery_finalize_ok hf).2.2
      show w.user_input_message_id = none
      rw [ht, hn2]
      rfl)
    hrun hfin hk

/-- Serializing an instance with `user_input_message_id` absent omits the key "userInputMessageId". -/
theorem CodeQuery_omit_user_input_message_id (v : CodeQuery) (h : v.user_input_message_id = none) :
    "userInputMessageId" ∉ v.toJson.topKeys := by
  simp [CodeQuery.toJson, Json.topKeys, mem_optField, h]


/-- Unknown extra keys are ignored by the `ContentSpan` deserializer. -/
theorem ContentSpan_tolerant {kvs extra : Fields} {v : ContentSpan}
    (hx : ∀ p ∈ extra, p.1 ∉ ContentSpan.knownKeys)
    (h : ContentSpan.fromJson (.obj kvs) = .ok v) :
    ContentSpan.fromJson (.obj (kvs ++ extra)) = .ok v := by
  obtain ⟨st, hrun, hfin⟩ := ContentSpan_fromJson_obj_ok h
  have hext : runFields ContentSpan.step extra st = .ok st :=
    runFields_ignored ContentSpan.step extra
      (fun p hp st1 j1 => ContentSpan_step_unknown st1 p.1 j1 (hx p hp)) st
  show (match runFields ContentSpan.step (kvs ++ extra) ContentSpan.stInit with
        | .error e => (.error e : Except ParseError ContentSpan)
        | .ok st1 => ContentSpan.finalize st1) = .ok v
  rw [runFields_append, hrun]
  show (match runFields ContentSpan.step extra st with
        | .error e => (.error e : Except ParseError ContentSpan)
        | .ok st1 => ContentSpan.finalize st1) = .ok v
  rw [hext]
  exact hfin

/-- Unknown extra keys are ignored by the `SupplementaryWebLink` deserializer. -/
theorem SupplementaryWebLink_tolerant {kvs extra : Fields} {v : SupplementaryWebLink}
    (hx : ∀ p ∈ extra, p.1 ∉ SupplementaryWebLink.knownKeys)
    (h : SupplementaryWebLink.fromJson (.obj kvs) = .ok v) :
    SupplementaryWebLink.fromJson (.obj (kvs ++ extra)) = .ok v := by
  obtain ⟨st, hrun, hfin⟩ := SupplementaryWebLink_fromJson_obj_ok h
  have hext : runFields SupplementaryWebLink.step extra st = .ok st :=
    runFields_ignored SupplementaryWebLink.step extra
      (fun p hp st1 j1 => SupplementaryWebLink_step_unknown st1 p.1 j1 (hx p hp)) st
  show (match runFields SupplementaryWebLink.step (kvs ++ extra) SupplementaryWebLink.stInit with
        | .error e => (.error e : Except ParseError SupplementaryWebLink)
        | .ok st1 => SupplementaryWebLink.finalize st1) = .ok v
  rw [runFields_append, hrun]
  show (match runFields SupplementaryWebLink.step extra st with
        | .error e => (.error e : Except ParseError SupplementaryWebLink)
        | .ok st1 => SupplementaryWebLink.finalize st1) = .ok v
  rw [hext]
  exact hfin

/-- Unknown extra keys are ignored by the `MostRelevantMissedAlternative` deserializer. -/
theorem MostRelevantMissedAlternative_tolerant {kvs extra : Fields} {v : MostRelevantMissedAlternative}
    (hx : ∀ p ∈ extra, p.1 ∉ MostRelevantMissedAlternative.knownKeys)
    (h : MostRelevantMissedAlternative.fromJson (.obj kvs) = .ok v) :
    MostRelevantMissedAlternative.fromJson (.obj (kvs ++ extra)) = .ok v := by
  obtain ⟨st, hrun, hfin⟩ := MostRelevantMissedAlternative_fromJson_obj_ok h
  have hext : runFields MostRelevantMissedAlternative.step extra st = .ok st :=
    runFields_ignored MostRelevantMissedAlternative.step extra
      (fun p hp st1 j1 => MostRelevantMissedAlternative_step_unknown st1 p.1 j1 (hx p hp)) st
  show (match runFields MostRelevantMissedAlternative.step (kvs ++ extra) MostRelevantMissedAlternative.stInit with
        | .error e => (.error e : Except ParseError MostRelevantMissedAlternative)
        | .ok st1 => MostRelevantMissedAlternative.finalize st1) = .ok v
  rw [runFields_append, hrun]
  show (match runFields MostRelevantMissedAlternative.step extra st with
        | .error e => (.error e : Except ParseError MostRelevantMissedAlternative)
        | .ok st1 => MostRelevantMissedAlternative.finalize st1) = .ok v
  rw [hext]
  exact hfin

/-- Unknown extra keys are ignored by the `Reference` deserializer. -/
theorem Reference_tolerant {kvs extra : Fields} {v : Reference}
    (hx : ∀ p ∈ extra, p.1 ∉ Reference.knownKeys)
    (h : Reference.fromJson (.obj kvs) = .ok v) :
    Reference.fromJson (.obj (kvs ++ extra)) = .ok v := by
  obtain ⟨st, hrun, hfin⟩ := Reference_fromJson_obj_ok h
  have hext : runFields Reference.step extra st = .ok st :=
    runFields_ignored Reference.step extra
      (fun p hp st1 j1 => Reference_step_unknown st1 p.1 j1 (hx p hp)) st
  show (match runFields Reference.step (kvs ++ extra) Reference.stInit with
        | .error e => (.error e : Except ParseError Reference)
        | .ok st1 => Reference.finalize st1) = .ok v
  rw [runFields_append, hrun]
  show (match runFields Reference.step extra st with
        | .error e => (.error e : Except ParseError Reference)
        | .ok st1 => Reference.finalize st1) = .ok v
  rw [hext]
  exact hfin

/-- Unknown extra keys are ignored by the `FollowupPrompt` deserializer. -/
theorem FollowupPrompt_tolerant {kvs extra : Fields} {v : FollowupPrompt}
    (hx : ∀ p ∈ extra, p.1 ∉ FollowupPrompt.knownKeys)
    (h : FollowupPrompt.fromJson (.obj kvs) = .ok v) :
    FollowupPrompt.fromJson (.obj (kvs ++ extra)) = .ok v := by
  obtain ⟨st, hrun, hfin⟩ := FollowupPrompt_fromJson_obj_ok h
  have hext : runFields FollowupPrompt.step extra st = .ok st :=
    runFields_ignored FollowupPrompt.step extra
      (fun p hp st1 j1 => FollowupPrompt_step_unknown st1 p.1 j1 (hx p hp)) st
  show (match runFields FollowupPrompt.step (kvs ++ extra) FollowupPrompt.stInit with
        | .error e => (.error e : Except ParseError FollowupPrompt)
        | .ok st1 => FollowupPrompt.finalize st1) = .ok v
  rw [runFields_append, hrun]
  show (match runFields FollowupPrompt.step extra st with
        | .error e => (.error e : Except ParseError FollowupPrompt)
        | .ok st1 => FollowupPrompt.finalize st1) = .ok v
  rw [hext]
  exact hfin

/-- Unknown extra keys are ignored by the `ProgrammingLanguage` deserializer. -/
theorem ProgrammingLanguage_tolerant {kvs extra : Fields} {v : ProgrammingLanguage}
    (hx : ∀ p ∈ extra, p.1 ∉ ProgrammingLanguage.knownKeys)
    (h : ProgrammingLanguage.fromJson (.obj kvs) = .ok v) :
    ProgrammingLanguage.fromJson (.obj (kvs ++ extra)) = .ok v := by
  obtain ⟨st, hrun, hfin⟩ := ProgrammingLanguage_fromJson_obj_ok h
  have hext : runFields ProgrammingLanguage.step extra st = .ok st :=
    runFields_ignored ProgrammingLanguage.step extra
      (fun p hp st1 j1 => ProgrammingLanguage_step_unknown st1 p.1 j1 (hx p hp)) st
  show (match runFields ProgrammingLanguage.step (kvs ++ extra) ProgrammingLanguage.stInit with
        | .error e => (.error e : Except ParseError ProgrammingLanguage)
        | .ok st1 => ProgrammingLanguage.finalize st1) = .ok v
  rw [runFields_append, hrun]
  show (match runFields ProgrammingLanguage.step extra st with
        | .error e => (.error e : Except ParseError ProgrammingLanguage)
        | .ok st1 => ProgrammingLanguage.finalize st1) = .ok v
  rw [hext]
  exact hfin

/-- Unknown extra keys are ignored by the `Customization` deserializer. -/
theorem Customization_tolerant {kvs extra : Fields} {v : Customization}
    (hx : ∀ p ∈ extra, p.1 ∉ Customization.knownKeys)
    (h : Customization.fromJson (.obj kvs) = .ok v) :
    Customization.fromJson (.obj (kvs ++ extra)) = .ok v := by
  obtain ⟨st, hrun, hfin⟩ := Customization_fromJson_obj_ok h
  have hext : runFields Customization.step extra st = .ok st :=
    runFields_ignored Customization.step extra
      (fun p hp st1 j1 => Customization_step_unknown st1 p.1 j1 (hx p hp)) st
  show (match runFields Customization.step (kvs ++ extra) Customization.stInit with
        | .error e => (.error e : Except ParseError Customization)
        | .ok st1 => Customization.finalize st1) = .ok v
  rw [runFields_append, hrun]
  show (match runFields Customization.step extra st with
        | .error e => (.error e : Except ParseError Customization)
        | .ok st1 => Customization.finalize st1) = .ok v
  rw [hext]
  exact hfin

/-- Unknown extra keys are ignored by the `CodeQuery` deserializer. -/
theorem CodeQuery_tolerant {kvs extra : Fields} {v : CodeQuery}
    (hx : ∀ p ∈ extra, p.1 ∉ CodeQuery.knownKeys)
    (h : CodeQuery.fromJson (.obj kvs) = .ok v) :
    CodeQuery.fromJson (.obj (kvs ++ extra)) = .ok v := by
  obtain ⟨st, hrun, hfin⟩ := CodeQuery_fromJson_obj_ok h
  have hext : runFields CodeQuery.step extra st = .ok st :=
    runFields_ignored CodeQuery.step extra
      (fun p hp st1 j1 => CodeQuery_step_unknown st1 p.1 j1 (hx p hp)) st
  show (match runFields CodeQuery.step (kvs ++ extra) CodeQuery.stInit with
        | .error e => (.error e : Except ParseError CodeQuery)
        | .ok st1 => CodeQuery.finalize st1) = .ok v
  rw [runFields_append, hrun]
  show (match runFields CodeQuery.step extra st with
        | .error e => (.error e : Except ParseError CodeQuery)
        | .ok st1 => CodeQuery.finalize st1) = .ok v
  rw [hext]
  exact hfin



/-- Claim C2 counterexample: `SupplementaryWebLink` does not support structural
equality: its derive list contains no equality trait, so two instances of it
cannot be compared at all. -/
theorem C2_cex : RustTrait.traitPartialEq ∉ derivesOf RustType.supplementaryWebLink := by
  decide

/-- Claim C2, amended: of the eight types only `ContentSpan` supports
structural equality — its derived `PartialEq` compares instances equal
exactly when all corresponding fields are equal — while the remaining seven
types derive no equality trait at all. -/
theorem C2_structural_equality :
    RustTrait.traitPartialEq ∈ derivesOf RustType.contentSpan ∧
    (∀ a b : ContentSpan, a.rustEq b = true ↔ a = b) ∧
    RustTrait.traitPartialEq ∉ derivesOf RustType.supplementaryWebLink ∧
    RustTrait.traitPartialEq ∉ derivesOf RustType.mostRelevantMissedAlternative ∧
    RustTrait.traitPartialEq ∉ derivesOf RustType.reference ∧
    RustTrait.traitPartialEq ∉ derivesOf RustType.followupPrompt ∧
    RustTrait.traitPartialEq ∉ derivesOf RustType.programmingLanguage ∧
    RustTrait.traitPartialEq ∉ derivesOf RustType.customization ∧
    RustTrait.traitPartialEq ∉ derivesOf RustType.codeQuery := by
  refine ⟨by decide, ?_, by decide, by decide, by decide, by decide, by decide,
    by decide, by decide⟩
  intro a b
  cases a
  cases b
  simp [ContentSpan.rustEq, ContentSpan.mk.injEq]

/-- Claim C3 counterexample: `Customization` has no constructor taking only
its required field — the source declares no `impl Customization` block. -/
theorem C3_cex : hasNewConstructor RustType.customization = false := by
  decide

/-- Claim C3, amended: seven of the eight types have a constructor taking
only the required field(s) and initializing every optional field to absent;
`Customization` is the exception, having no constructor at all. -/
theorem C3_constructors :
    hasNewConstructor RustType.contentSpan = true ∧
    hasNewConstructor RustType.supplementaryWebLink = true ∧
    hasNewConstructor RustType.mostRelevantMissedAlternative = true ∧
    hasNewConstructor RustType.reference = true ∧
    hasNewConstructor RustType.followupPrompt = true ∧
    hasNewConstructor RustType.programmingLanguage = true ∧
    hasNewConstructor RustType.customization = false ∧
    hasNewConstructor RustType.codeQuery = true ∧
    (∀ a b : Int, ContentSpan.new a b = { start := a, «end» := b }) ∧
    (∀ u : String, SupplementaryWebLink.new u =
      { url := u, title := none, snippet := none, score := none }) ∧
    (∀ u : String, MostRelevantMissedAlternative.new u =
      { url := u, license_name := none, repository := none }) ∧
    (Reference.new =
      { license_name := none, repository := none, url := none, information := none,
        recommendation_content_span := none, most_relevant_missed_alternative := none }) ∧
    (∀ c : String, FollowupPrompt.new c = { content := c, user_intent := none }) ∧
    (∀ n : String, ProgrammingLanguage.new n = { language_name := n }) ∧
    (∀ i : String, CodeQuery.new i =
      { code_query_id := i, programming_language := none,
        user_input_message_id := none }) :=
  ⟨rfl, rfl, rfl, rfl, rfl, rfl, rfl, rfl, fun a b => rfl, fun u => rfl, fun u => rfl,
   rfl, fun c => rfl, fun n => rfl, fun i => rfl⟩

/-- Claim C6: for 32-bit signed integers a and b, the span built by
`ContentSpan::new(a, b)` is empty exactly when a ≥ b: false when a < b,
true when a = b, true when a > b. -/
theorem C6_is_empty (a b : Int) (ha : i32range a) (hb : i32range b) :
    ((ContentSpan.new a b).is_empty = true ↔ a ≥ b) ∧
    (a < b → (ContentSpan.new a b).is_empty = false) ∧
    (a = b → (ContentSpan.new a b).is_empty = true) ∧
    (a > b → (ContentSpan.new a b).is_empty = true) := by
  refine ⟨?_, ?_, ?_, ?_⟩ <;>
    simp [ContentSpan.new, ContentSpan.is_empty] <;> omega

/-- Witness for claim C6 at a = 3, b = 7 and at a = 5, b = 5. -/
theorem C6_is_empty_witness :
    i32range 3 ∧ i32range 7 ∧ i32range 5 ∧
    ((ContentSpan.new 3 7).is_empty = true ↔ (3 : Int) ≥ 7) ∧
    ((3 : Int) = 7 → False) ∧
    ((5 : Int) = 5 → (ContentSpan.new 5 5).is_empty = true) :=
  ⟨by decide, by decide, by decide,
   (C6_is_empty 3 7 (by decide) (by decide)).1,
   by decide,
   (C6_is_empty 5 5 (by decide) (by decide)).2.2.1⟩

/-- Claim C7: the length accessor returns end minus start by plain wrapping
32-bit subtraction; whenever the mathematical difference fits in 32-bit
signed range the result is exactly b - a, negative when a > b, unclamped. -/
theorem C7_len (a b : Int) (ha : i32range a) (hb : i32range b) :
    (ContentSpan.new a b).len = wrap32 (b - a) ∧
    (i32range (b - a) → (ContentSpan.new a b).len = b - a) := by
  constructor
  · rfl
  · intro h
    show wrap32 (b - a) = b - a
    unfold wrap32 i32range at *
    omega

/-- Witness for claim C7 at a = 5, b = 2: the length is the negative
number -3, not clamped to zero. -/
theorem C7_len_witness :
    i32range 5 ∧ i32range 2 ∧ i32range ((2 : Int) - 5) ∧
    (ContentSpan.new 5 2).len = (2 : Int) - 5 ∧ ((2 : Int) - 5) < 0 :=
  ⟨by decide, by decide, by decide,
   (C7_len 5 2 (by decide) (by decide)).2 (by decide), by decide⟩

/-- Claim C8: every with-X builder method sets exactly the one optional
field it names to the given present value and leaves all other fields of
the instance unchanged. -/
theorem C8_with_frame :
    (∀ (s : SupplementaryWebLink) (x : String),
      (s.with_title x).title = some x ∧ (s.with_title x).url = s.url ∧
      (s.with_title x).snippet = s.snippet ∧ (s.with_title x).score = s.score) ∧
    (∀ (s : SupplementaryWebLink) (x : String),
      (s.with_snippet x).snippet = some x ∧ (s.with_snippet x).url = s.url ∧
      (s.with_snippet x).title = s.title ∧ (s.with_snippet x).score = s.score) ∧
    (∀ (s : SupplementaryWebLink) (x : F64),
      (s.with_score x).score = some x ∧ (s.with_score x).url = s.url ∧
      (s.with_score x).title = s.title ∧ (s.with_score x).snippet = s.snippet) ∧
    (∀ (r : Reference) (x : String),
      (r.with_license_name x).license_name = some x ∧
      (r.with_license_name x).repository = r.repository ∧
      (r.with_license_name x).url = r.url ∧
      (r.with_license_name x).information = r.information ∧
      (r.with_license_name x).recommendation_content_span =
        r.recommendation_content_span ∧
      (r.with_license_name x).most_relevant_missed_alternative =
        r.most_relevant_missed_alternative) ∧
    (∀ (r : Reference) (x : String),
      (r.with_repository x).repository = some x ∧
      (r.with_repository x).license_name = r.license_name ∧
      (r.with_repository x).url = r.url ∧
      (r.with_repository x).information = r.information ∧
      (r.with_repository x).recommendation_content_span =
        r.recommendation_content_span ∧
      (r.with_repository x).most_relevant_missed_alternative =
        r.most_relevant_missed_alternative) ∧
    (∀ (r : Reference) (x : String),
      (r.with_url x).url = some x ∧
      (r.with_url x).license_name = r.license_name ∧
      (r.with_url x).repository = r.repository ∧
      (r.with_url x).information = r.information ∧
      (r.with_url x).recommendation_content_span = r.recommendation_content_span ∧
      (r.with_url x).most_relevant_missed_alternative =
        r.most_relevant_missed_alternative) ∧
    (∀ (p : FollowupPrompt) (i : UserIntent),
      (p.with_user_intent i).user_intent = some i ∧
      (p.with_user_intent i).content = p.content) ∧
    (∀ (q : CodeQuery) (l : ProgrammingLanguage),
      (q.with_programming_language l).programming_language = some l ∧
      (q.with_programming_language l).code_query_id = q.code_query_id ∧
      (q.with_programming_language l).user_input_message_id =
        q.user_input_message_id) ∧
    (∀ (q : CodeQuery) (x : String),
      (q.with_user_input_message_id x).user_input_message_id = some x ∧
      (q.with_user_input_message_id x).code_query_id = q.code_query_id ∧
      (q.with_user_input_message_id x).programming_language =
        q.programming_language) :=
  ⟨fun s x => ⟨rfl, rfl, rfl, rfl⟩, fun s x => ⟨rfl, rfl, rfl, rfl⟩,
   fun s x => ⟨rfl, rfl, rfl, rfl⟩,
   fun r x => ⟨rfl, rfl, rfl, rfl, rfl, rfl⟩,
   fun r x => ⟨rfl, rfl, rfl, rfl, rfl, rfl⟩,
   fun r x => ⟨rfl, rfl, rfl, rfl, rfl, rfl⟩,
   fun p i => ⟨rfl, rfl⟩,
   fun q l => ⟨rfl, rfl, rfl⟩, fun q x => ⟨rfl, rfl, rfl⟩⟩

/-- Claim C9: applying the same set of distinct with-X calls with the same
arguments to a freshly constructed instance in any order yields a
structurally equal final instance. -/
theorem C9_builder_comm :
    (∀ (u t sn : String) (sc : F64),
      (((SupplementaryWebLink.new u).with_title t).with_snippet sn).with_score sc =
        (((SupplementaryWebLink.new u).with_title t).with_score sc).with_snippet sn ∧
      (((SupplementaryWebLink.new u).with_title t).with_snippet sn).with_score sc =
        (((SupplementaryWebLink.new u).with_snippet sn).with_title t).with_score sc ∧
      (((SupplementaryWebLink.new u).with_title t).with_snippet sn).with_score sc =
        (((SupplementaryWebLink.new u).with_snippet sn).with_score sc).with_title t ∧
      (((SupplementaryWebLink.new u).with_title t).with_snippet sn).with_score sc =
        (((SupplementaryWebLink.new u).with_score sc).with_title t).with_snippet sn ∧
      (((SupplementaryWebLink.new u).with_title t).with_snippet sn).with_score sc =
        (((SupplementaryWebLink.new u).with_score sc).with_snippet sn).with_title t) ∧
    (∀ ln rp url : String,
      ((Reference.new.with_license_name ln).with_repository rp).with_url url =
        ((Reference.new.with_license_name ln).with_url url).with_repository rp ∧
      ((Reference.new.with_license_name ln).with_repository rp).with_url url =
        ((Reference.new.with_repository rp).with_license_name ln).with_url url ∧
      ((Reference.new.with_license_name ln).with_repository rp).with_url url =
        ((Reference.new.with_repository rp).with_url url).with_license_name ln ∧
      ((Reference.new.with_license_name ln).with_repository rp).with_url url =
        ((Reference.new.with_url url).with_license_name ln).with_repository rp ∧
      ((Reference.new.with_license_name ln).with_repository rp).with_url url =
        ((Reference.new.with_url url).with_repository rp).with_license_name ln) ∧
    (∀ (i mid : String) (l : ProgrammingLanguage),
      ((CodeQuery.new i).with_programming_language l).with_user_input_message_id mid =
        ((CodeQuery.new i).with_user_input_message_id mid).with_programming_language
          l) :=
  ⟨fun u t sn sc => ⟨rfl, rfl, rfl, rfl, rfl⟩,
   fun ln rp url => ⟨rfl, rfl, rfl, rfl, rfl⟩,
   fun i mid l => rfl⟩



/-- Claim C1, amended: deserializing the serialization of a valid instance
yields a field-for-field equal instance, for every instance of each of the
eight types whose optional floating-point score, when present, is finite
(serde_json serializes the non-finite doubles as null, so instances holding
a NaN or infinite score do not round-trip); span fields range over `i32`. -/
theorem C1_roundtrip :
    (∀ v : ContentSpan, i32range v.start → i32range v.«end» →
      ContentSpan.fromJson v.toJson = .ok v) ∧
    (∀ v : SupplementaryWebLink, (∀ q, v.score = some q → q.isFinite = true) →
      SupplementaryWebLink.fromJson v.toJson = .ok v) ∧
    (∀ v : MostRelevantMissedAlternative,
      MostRelevantMissedAlternative.fromJson v.toJson = .ok v) ∧
    (∀ v : Reference, (∀ sp, v.recommendation_content_span = some sp →
        i32range sp.start ∧ i32range sp.«end») →
      Reference.fromJson v.toJson = .ok v) ∧
    (∀ v : FollowupPrompt, FollowupPrompt.fromJson v.toJson = .ok v) ∧
    (∀ v : ProgrammingLanguage, ProgrammingLanguage.fromJson v.toJson = .ok v) ∧
    (∀ v : Customization, Customization.fromJson v.toJson = .ok v) ∧
    (∀ v : CodeQuery, CodeQuery.fromJson v.toJson = .ok v) :=
  ⟨ContentSpan_roundtrip, SupplementaryWebLink_roundtrip,
   MostRelevantMissedAlternative_roundtrip, Reference_roundtrip,
   FollowupPrompt_roundtrip, ProgrammingLanguage_roundtrip,
   Customization_roundtrip, CodeQuery_roundtrip⟩

/-- Claim C1 counterexample: the valid `SupplementaryWebLink` whose score is
the 64-bit double NaN serializes its score as null, which deserializes back
to an absent score, so the round-trip result differs from the original. -/
theorem C1_roundtrip_cex :
    SupplementaryWebLink.fromJson
        ((SupplementaryWebLink.new "https://example.com").with_score .nan).toJson ≠
      .ok ((SupplementaryWebLink.new "https://example.com").with_score .nan) := by
  intro h
  have h1 : SupplementaryWebLink.fromJson
      ((SupplementaryWebLink.new "https://example.com").with_score .nan).toJson =
    .ok (SupplementaryWebLink.new "https://example.com") := rfl
  rw [h1] at h
  injection h with h
  exact Option.noConfusion (congrArg SupplementaryWebLink.score h)

/-- Witness for claim C1 on concrete instances of the hypothesis-bearing
components. -/
theorem C1_roundtrip_witness :
    (i32range 10 ∧ i32range 20 ∧
      ContentSpan.fromJson (ContentSpan.new 10 20).toJson =
        .ok (ContentSpan.new 10 20)) ∧
    SupplementaryWebLink.fromJson
        ((SupplementaryWebLink.new "https://test.com").with_title "Test").toJson =
      .ok ((SupplementaryWebLink.new "https://test.com").with_title "Test") ∧
    Reference.fromJson (Reference.new.with_license_name "MIT").toJson =
      .ok (Reference.new.with_license_name "MIT") :=
  ⟨⟨by decide, by decide, C1_roundtrip.1 _ (by decide) (by decide)⟩,
   C1_roundtrip.2.1 _ (fun q hq => by cases hq),
   C1_roundtrip.2.2.2.1 _ (fun sp hsp => by cases hsp)⟩

/-- Claim C4: deserializing a payload with a missing or type-mismatched
required field fails with a structured parse error and never defaults the
field; in particular the empty object fails on `SupplementaryWebLink` with
a missing-field error for url, and likewise for the other types with
required fields. -/
theorem C4_required_fields :
    SupplementaryWebLink.fromJson (.obj []) = .error (.missingField "url") ∧
    (∀ kvs : Fields, (∀ p ∈ kvs, p.1 ≠ "url") →
      ∀ v, SupplementaryWebLink.fromJson (.obj kvs) ≠ .ok v) ∧
    SupplementaryWebLink.fromJson (.obj [("url", .num 1)]) =
      .error (.invalidType "a string") ∧
    SupplementaryWebLink.fromJson
        (.obj [("url", .str "https://example.com"), ("score", .str "high")]) =
      .error (.invalidType "a number") ∧
    ContentSpan.fromJson (.obj []) = .error (.missingField "start") ∧
    MostRelevantMissedAlternative.fromJson (.obj []) = .error (.missingField "url") ∧
    FollowupPrompt.fromJson (.obj []) = .error (.missingField "content") ∧
    ProgrammingLanguage.fromJson (.obj []) =
      .error (.missingField "languageName") ∧
    Customization.fromJson (.obj []) = .error (.missingField "arn") ∧
    CodeQuery.fromJson (.obj []) = .error (.missingField "codeQueryId") :=
  ⟨rfl, fun kvs hk => SupplementaryWebLink.missing_url hk, rfl, rfl, rfl, rfl, rfl,
   rfl, rfl, rfl⟩

/-- Witness for claim C4: a url-less payload that is not even empty still
fails to produce any value. -/
theorem C4_required_fields_witness :
    (∀ p ∈ ([("title", Json.str "T")] : Fields), p.1 ≠ "url") ∧
    SupplementaryWebLink.fromJson (.obj [("title", Json.str "T")]) ≠
      .ok (SupplementaryWebLink.new "") :=
  ⟨by decide,
   C4_required_fields.2.1 [("title", Json.str "T")] (by decide)
     (SupplementaryWebLink.new "")⟩

/-- Claim C5: a serialized instance never contains the key of an absent
optional field, and deserializing input without that key yields the absent
value, for every optional field of the eight types. -/
theorem C5_omission :
    (∀ v : SupplementaryWebLink, v.title = none → "title" ∉ v.toJson.topKeys) ∧
    (∀ (kvs : Fields) (v : SupplementaryWebLink), (∀ p ∈ kvs, p.1 ≠ "title") →
      SupplementaryWebLink.fromJson (.obj kvs) = .ok v → v.title = none) ∧
    (∀ v : SupplementaryWebLink, v.snippet = none → "snippet" ∉ v.toJson.topKeys) ∧
    (∀ (kvs : Fields) (v : SupplementaryWebLink), (∀ p ∈ kvs, p.1 ≠ "snippet") →
      SupplementaryWebLink.fromJson (.obj kvs) = .ok v → v.snippet = none) ∧
    (∀ v : SupplementaryWebLink, v.score = none → "score" ∉ v.toJson.topKeys) ∧
    (∀ (kvs : Fields) (v : SupplementaryWebLink), (∀ p ∈ kvs, p.1 ≠ "score") →
      SupplementaryWebLink.fromJson (.obj kvs) = .ok v → v.score = none) ∧
    (∀ v : MostRelevantMissedAlternative, v.license_name = none → "licenseName" ∉ v.toJson.topKeys) ∧
    (∀ (kvs : Fields) (v : MostRelevantMissedAlternative), (∀ p ∈ kvs, p.1 ≠ "licenseName") →
      MostRelevantMissedAlternative.fromJson (.obj kvs) = .ok v → v.license_name = none) ∧
    (∀ v : MostRelevantMissedAlternative, v.repository = none → "repository" ∉ v.toJson.topKeys) ∧
    (∀ (kvs : Fields) (v : MostRelevantMissedAlternative), (∀ p ∈ kvs, p.1 ≠ "repository") →
      MostRelevantMissedAlternative.fromJson (.obj kvs) = .ok v → v.repository = none) ∧
    (∀ v : Reference, v.license_name = none → "licenseName" ∉ v.toJson.topKeys) ∧
    (∀ (kvs : Fields) (v : Reference), (∀ p ∈ kvs, p.1 ≠ "licenseName") →
      Reference.fromJson (.obj kvs) = .ok v → v.license_name = none) ∧
    (∀ v : Reference, v.repository = none → "repository" ∉ v.toJson.topKeys) ∧
    (∀ (kvs : Fields) (v : Reference), (∀ p ∈ kvs, p.1 ≠ "repository") →
      Reference.fromJson (.obj kvs) = .ok v → v.repository = none) ∧
    (∀ v : Reference, v.url = none → "url" ∉ v.toJson.topKeys) ∧
    (∀ (kvs : Fields) (v : Reference), (∀ p ∈ kvs, p.1 ≠ "url") →
      Reference.fromJson (.obj kvs) = .ok v → v.url = none) ∧
    (∀ v : Reference, v.information = none → "information" ∉ v.toJson.topKeys) ∧
    (∀ (kvs : Fields) (v : Reference), (∀ p ∈ kvs, p.1 ≠ "information") →
      Reference.fromJson (.obj kvs) = .ok v → v.information = none) ∧
    (∀ v : Reference, v.recommendation_content_span = none → "recommendationContentSpan" ∉ v.toJson.topKeys) ∧
    (∀ (kvs : Fields) (v : Reference), (∀ p ∈ kvs, p.1 ≠ "recommendationContentSpan") →
      Reference.fromJson (.obj kvs) = .ok v → v.recommendation_content_span = none) ∧
    (∀ v : Reference, v.most_relevant_missed_alternative = none → "mostRelevantMissedAlternative" ∉ v.toJson.topKeys) ∧
    (∀ (kvs : Fields) (v : Reference), (∀ p ∈ kvs, p.1 ≠ "mostRelevantMissedAlternative") →
      Reference.fromJson (.obj kvs) = .ok v → v.most_relevant_missed_alternative = none) ∧
    (∀ v : FollowupPrompt, v.user_intent = none → "userIntent" ∉ v.toJson.topKeys) ∧
    (∀ (kvs : Fields) (v : FollowupPrompt), (∀ p ∈ kvs, p.1 ≠ "userIntent") →
      FollowupPrompt.fromJson (.obj kvs) = .ok v → v.user_intent = none) ∧
    (∀ v : Customization, v.name = none → "name" ∉ v.toJson.topKeys) ∧
    (∀ (kvs : Fields) (v : Customization), (∀ p ∈ kvs, p.1 ≠ "name") →
      Customization.fromJson (.obj kvs) = .ok v → v.name = none) ∧
    (∀ v : CodeQuery, v.programming_language = none → "programmingLanguage" ∉ v.toJson.topKeys) ∧
    (∀ (kvs : Fields) (v : CodeQuery), (∀ p ∈ kvs, p.1 ≠ "programmingLanguage") →
      CodeQuery.fromJson (.obj kvs) = .ok v → v.programming_language = none) ∧
    (∀ v : CodeQuery, v.user_input_message_id = none → "userInputMessageId" ∉ v.toJson.topKeys) ∧
    (∀ (kvs : Fields) (v : CodeQuery), (∀ p ∈ kvs, p.1 ≠ "userInputMessageId") →
      CodeQuery.fromJson (.obj kvs) = .ok v → v.user_input_message_id = none) :=
  ⟨SupplementaryWebLink_omit_title,
   fun kvs v hk h => SupplementaryWebLink_absent_title hk h,
   SupplementaryWebLink_omit_snippet,
   fun kvs v hk h => SupplementaryWebLink_absent_snippet hk h,
   SupplementaryWebLink_omit_score,
   fun kvs v hk h => SupplementaryWebLink_absent_score hk h,
   MostRelevantMissedAlternative_omit_license_name,
   fun kvs v hk h => MostRelevantMissedAlternative_absent_license_name hk h,
   MostRelevantMissedAlternative_omit_repository,
   fun kvs v hk h => MostRelevantMissedAlternative_absent_repository hk h,
   Reference_omit_license_name,
   fun kvs v hk h => Reference_absent_license_name hk h,
   Reference_omit_repository,
   fun kvs v hk h => Reference_absent_repository hk h,
   Reference_omit_url,
   fun kvs v hk h => Reference_absent_url hk h,
   Reference_omit_information,
   fun kvs v hk h => Reference_absent_information hk h,
   Reference_omit_recommendation_content_span,
   fun kvs v hk h => Reference_absent_recommendation_content_span hk h,
   Reference_omit_most_relevant_missed_alternative,
   fun kvs v hk h => Reference_absent_most_relevant_missed_alternative hk h,
   FollowupPrompt_omit_user_intent,
   fun kvs v hk h => FollowupPrompt_absent_user_intent hk h,
   Customization_omit_name,
   fun kvs v hk h => Customization_absent_name hk h,
   CodeQuery_omit_programming_language,
   fun kvs v hk h => CodeQuery_absent_programming_language hk h,
   CodeQuery_omit_user_input_message_id,
   fun kvs v hk h => CodeQuery_absent_user_input_message_id hk h⟩

/-- Witness for claim C5 on the title field of `SupplementaryWebLink`. -/
theorem C5_omission_witness :
    ((SupplementaryWebLink.new "https://x.example").title = none ∧
     "title" ∉ (SupplementaryWebLink.new "https://x.example").toJson.topKeys) ∧
    ((∀ p ∈ ([("url", Json.str "u")] : Fields), p.1 ≠ "title") ∧
     SupplementaryWebLink.fromJson (.obj [("url", Json.str "u")]) =
       .ok (SupplementaryWebLink.new "u") ∧
     (SupplementaryWebLink.new "u").title = none) :=
  ⟨⟨rfl, C5_omission.1 _ rfl⟩,
   ⟨by decide, rfl,
    C5_omission.2.1 [("url", Json.str "u")] (SupplementaryWebLink.new "u")
      (by decide) rfl⟩⟩

/-- Claim C10: each deserializer tolerates extra unrecognized keys — an
object that parses successfully still parses to the same value after
appending entries whose keys the type does not recognize. -/
theorem C10_unknown_keys :
    (∀ (kvs extra : Fields) (v : ContentSpan),
      (∀ p ∈ extra, p.1 ∉ ContentSpan.knownKeys) →
      ContentSpan.fromJson (.obj kvs) = .ok v →
      ContentSpan.fromJson (.obj (kvs ++ extra)) = .ok v) ∧
    (∀ (kvs extra : Fields) (v : SupplementaryWebLink),
      (∀ p ∈ extra, p.1 ∉ SupplementaryWebLink.knownKeys) →
      SupplementaryWebLink.fromJson (.obj kvs) = .ok v →
      SupplementaryWebLink.fromJson (.obj (kvs ++ extra)) = .ok v) ∧
    (∀ (kvs extra : Fields) (v : MostRelevantMissedAlternative),
      (∀ p ∈ extra, p.1 ∉ MostRelevantMissedAlternative.knownKeys) →
      MostRelevantMissedAlternative.fromJson (.obj kvs) = .ok v →
      MostRelevantMissedAlternative.fromJson (.obj (kvs ++ extra)) = .ok v) ∧
    (∀ (kvs extra : Fields) (v : Reference),
      (∀ p ∈ extra, p.1 ∉ Reference.knownKeys) →
      Reference.fromJson (.obj kvs) = .ok v →
      Reference.fromJson (.obj (kvs ++ extra)) = .ok v) ∧
    (∀ (kvs extra : Fields) (v : FollowupPrompt),
      (∀ p ∈ extra, p.1 ∉ FollowupPrompt.knownKeys) →
      FollowupPrompt.fromJson (.obj kvs) = .ok v →
      FollowupPrompt.fromJson (.obj (kvs ++ extra)) = .ok v) ∧
    (∀ (kvs extra : Fields) (v : ProgrammingLanguage),
      (∀ p ∈ extra, p.1 ∉ ProgrammingLanguage.knownKeys) →
      ProgrammingLanguage.fromJson (.obj kvs) = .ok v →
      ProgrammingLanguage.fromJson (.obj (kvs ++ extra)) = .ok v) ∧
    (∀ (kvs extra : Fields) (v : Customization),
      (∀ p ∈ extra, p.1 ∉ Customization.knownKeys) →
      Customization.fromJson (.obj kvs) = .ok v →
      Customization.fromJson (.obj (kvs ++ extra)) = .ok v) ∧
    (∀ (kvs extra : Fields) (v : CodeQuery),
      (∀ p ∈ extra, p.1 ∉ CodeQuery.knownKeys) →
      CodeQuery.fromJson (.obj kvs) = .ok v →
      CodeQuery.fromJson (.obj (kvs ++ extra)) = .ok v) :=
  ⟨fun kvs extra v hx h => ContentSpan_tolerant hx h,
   fun kvs extra v hx h => SupplementaryWebLink_tolerant hx h,
   fun kvs extra v hx h => MostRelevantMissedAlternative_tolerant hx h,
   fun kvs extra v hx h => Reference_tolerant hx h,
   fun kvs extra v hx h => FollowupPrompt_tolerant hx h,
   fun kvs extra v hx h => ProgrammingLanguage_tolerant hx h,
   fun kvs extra v hx h => Customization_tolerant hx h,
   fun kvs extra v hx h => CodeQuery_tolerant hx h⟩

/-- Witness for claim C10: a language payload with one extra unrecognized
key still parses to the same value. -/
theorem C10_unknown_keys_witness :
    (∀ p ∈ ([("futureField", Json.null)] : Fields),
      p.1 ∉ ProgrammingLanguage.knownKeys) ∧
    ProgrammingLanguage.fromJson
        (.obj ([("languageName", Json.str "rust")] ++ [("futureField", Json.null)])) =
      .ok (ProgrammingLanguage.new "rust") :=
  ⟨by decide,
   C10_unknown_keys.2.2.2.2.2.1 [("languageName", Json.str "rust")]
     [("futureField", Json.null)] (ProgrammingLanguage.new "rust") (by decide) rfl⟩


end Kiro
